import Mathlib

/-!
# Waveform preferences page (`DlgPrefWaveform`)

A shallow embedding of `src/preferences/dialog/dlgprefwaveform.cpp`.

The page is widget glue: every slot reads or writes the rendering factory, the
configuration store and the widgets of the page.  The embedding makes that
state explicit (`State`) and turns every slot into a function on it.  A signal
that the constructor connects to a slot is a direct call of that slot, made in
the order of the `connect` calls.
-/

namespace DlgPrefWaveform

/-! ## Enumerations -/

/-- Modelled from the spec: the declaration of `WaveformWidgetType::Type` is not
in the source file.  The five enumerators the file names are constructors; every
further render type of the enumeration is `Other code`. -/
inductive WaveformWidgetType where
  | Empty
  | Simple
  | VSyncTest
  | RGB
  | Stacked
  | Other (code : Nat)
  deriving DecidableEq, Repr

/-- Modelled from the spec: the declaration of `WaveformWidgetBackend` is not in
the source file.  The file names `None`, `GL` and `AllShader`; every further
backend is `Other code`. -/
inductive WaveformWidgetBackend where
  | None
  | GL
  | AllShader
  | Other (code : Nat)
  deriving DecidableEq, Repr

/-- The keys of the configuration store that the page reads or writes. -/
inductive ConfigKey where
  | useHardwareAcceleration
  | splitStereoSignal
  | waveformOverviewType
  | beatGridAlpha
  | enableWaveformCaching
  | generateWaveformsWithAnalysis
  deriving DecidableEq, Repr

/-! ## Widgets

The widget toolkit is not part of the repository.  Each widget is the record of
the properties the page touches; `enabled` and `visible` are the flags set by
`setEnabled` and `setVisible` on the widget itself. -/

/-- A check box. -/
structure QCheckBox where
  enabled : Bool
  checked : Bool
  visible : Bool
  signalsBlocked : Bool
  deriving DecidableEq, Repr

/-- The `blockSignals` call of a check box. -/
def QCheckBox.blockSignals (c : QCheckBox) (b : Bool) : QCheckBox :=
  { c with signalsBlocked := b }

/-- The `setEnabled` call of a check box. -/
def QCheckBox.setEnabled (c : QCheckBox) (b : Bool) : QCheckBox :=
  { c with enabled := b }

/-- The `setChecked` call of a check box (the state only; a connected `toggled`
signal is raised by the caller). -/
def QCheckBox.setChecked (c : QCheckBox) (b : Bool) : QCheckBox :=
  { c with checked := b }

/-- The `setVisible` call of a check box. -/
def QCheckBox.setVisible (c : QCheckBox) (b : Bool) : QCheckBox :=
  { c with visible := b }

/-- Whether `setChecked b` raises `toggled`: the state changes and the signals
of the box are not blocked. -/
def QCheckBox.toggles (c : QCheckBox) (b : Bool) : Bool :=
  c.checked != b && !c.signalsBlocked

/-! ## Lookup tables -/

/-- Line 12: the default render type. -/
def kDefaultWaveform : WaveformWidgetType := WaveformWidgetType.RGB

/-- Lines 13-15. -/
def kWaveformWithOnlyAcceleration : List WaveformWidgetType :=
  [WaveformWidgetType.Simple, WaveformWidgetType.Stacked]

/-- Lines 16-18. -/
def kWaveformWithoutAcceleration : List WaveformWidgetType :=
  [WaveformWidgetType.VSyncTest, WaveformWidgetType.Empty]

/-- Lines 19-20. -/
def kWaveformWithSplitSignalSupport : List WaveformWidgetType :=
  [WaveformWidgetType.RGB]

/-- Lines 22-34. -/
def setAccelerationCheckboxProperty (type : WaveformWidgetType) (checkbox : QCheckBox) :
    QCheckBox :=
  let checkbox := checkbox.blockSignals true
  let checkbox :=
    if kWaveformWithOnlyAcceleration.contains type then
      (checkbox.setEnabled false).setChecked true
    else if kWaveformWithoutAcceleration.contains type then
      (checkbox.setEnabled false).setChecked false
    else
      checkbox.setEnabled true
  checkbox.blockSignals false

/-- Lines 35-41. -/
def updateStereoSplitVisibility (type : WaveformWidgetType) (isAccelerationEnabled : Bool)
    (checkbox : QCheckBox) : QCheckBox :=
  let checkbox := checkbox.blockSignals true
  let checkbox :=
    checkbox.setVisible (isAccelerationEnabled && kWaveformWithSplitSignalSupport.contains type)
  checkbox.blockSignals false

/-! ## The remaining widget kinds

The ranges of the spin boxes and sliders and the item lists of the combo boxes
are fixed when the page is built and no slot changes them; they are part of
`Env` below.  The state of a widget is what a slot can change. -/

/-- A spin box or a slider holding an integer. -/
structure QIntWidget where
  value : Int
  enabled : Bool
  deriving DecidableEq, Repr

/-- A spin box holding a double.  A double is modelled by a rational: every
finite double is one, and the page only stores, compares and truncates them. -/
structure QDoubleSpinBox where
  value : ℚ
  deriving DecidableEq, Repr

/-- A combo box: the index of the selected item, `-1` when there is none. -/
structure QComboBox where
  currentIndex : Int
  enabled : Bool
  deriving DecidableEq, Repr

/-- The range of a spin box or slider, as the form file declares it. -/
structure IntRange where
  minimum : Int
  maximum : Int
  deriving DecidableEq, Repr

/-- The form data of a double spin box: its range, and `round`, the rounding of
a value to the number of decimals of the box. -/
structure DoubleForm where
  minimum : ℚ
  maximum : ℚ
  round : ℚ → ℚ

/-- The value a spin box takes on `setValue v`: a value under the minimum becomes
the minimum, then a value over the maximum becomes the maximum. -/
def IntRange.spinBound (r : IntRange) (v : Int) : Int :=
  let v := if v < r.minimum then r.minimum else v
  if v > r.maximum then r.maximum else v

/-- The value a slider takes on `setValue v`: `qMax(minimum, qMin(maximum, v))`. -/
def IntRange.sliderBound (r : IntRange) (v : Int) : Int :=
  max r.minimum (min r.maximum v)

/-- The value a double spin box takes on `setValue v`: `v` is rounded to the
decimals of the box, then bounded like an integer spin box. -/
def DoubleForm.fit (r : DoubleForm) (v : ℚ) : ℚ :=
  let v := r.round v
  let v := if v < r.minimum then r.minimum else v
  if v > r.maximum then r.maximum else v

/-- The index a combo box of `count` items takes on `setCurrentIndex index`: an
index that names no item selects nothing. -/
def comboIndex (count : Nat) (index : Int) : Int :=
  if 0 ≤ index ∧ index < count then index else -1

/-- `findData` of a combo box: the index of the first item whose data satisfies
`p`, `-1` when there is none. -/
def findData {α : Type} (p : α → Bool) : List α → Int
  | [] => -1
  | x :: xs =>
    if p x then 0
    else
      let r := findData p xs
      if r = -1 then -1 else r + 1

/-- A `static_cast<int>` of a double: truncation toward zero. -/
def truncToInt (q : ℚ) : Int := q.num.tdiv q.den

/-! ## The collaborators -/

/-- The four bands of `getVisualGain` and `setVisualGain`. -/
inductive BandIndex where
  | All
  | Low
  | Mid
  | High
  deriving DecidableEq, Repr

/-- Modelled from the spec: the rendering factory is not in the source file.
The spec gives it get/set pairs for the render type, frame rate, zoom, gain per
band, marker position and until-mark display options; the record holds what each
getter the page calls returns, and each setter stores its argument.
`beatGridAlpha` is read by `getBeatGridAlpha` and written by
`setDisplayBeatGridAlpha`. -/
structure WaveformWidgetFactory where
  type : WaveformWidgetType
  openGlAvailable : Bool
  openGlesAvailable : Bool
  openGLVersion : String
  frameRate : Int
  endOfTrackWarningTime : Int
  zoomSync : Bool
  visualGainAll : ℚ
  visualGainLow : ℚ
  visualGainMid : ℚ
  visualGainHigh : ℚ
  overviewNormalized : Bool
  defaultZoom : ℚ
  playMarkerPosition : ℚ
  beatGridAlpha : Int
  untilMarkShowBeats : Bool
  untilMarkShowTime : Bool
  untilMarkAlign : Int
  untilMarkTextPointSize : Int
  deriving DecidableEq, Repr

/-- The getter `getVisualGain`. -/
def WaveformWidgetFactory.getVisualGain (f : WaveformWidgetFactory) : BandIndex → ℚ
  | BandIndex.All => f.visualGainAll
  | BandIndex.Low => f.visualGainLow
  | BandIndex.Mid => f.visualGainMid
  | BandIndex.High => f.visualGainHigh

/-- The setter `setVisualGain`. -/
def WaveformWidgetFactory.setVisualGain (f : WaveformWidgetFactory) :
    BandIndex → ℚ → WaveformWidgetFactory
  | BandIndex.All, gain => { f with visualGainAll := gain }
  | BandIndex.Low, gain => { f with visualGainLow := gain }
  | BandIndex.Mid, gain => { f with visualGainMid := gain }
  | BandIndex.High, gain => { f with visualGainHigh := gain }

/-- Modelled from the spec: the configuration store and the settings wrapper are
not in the source file.  The store is a key/value store; a key the page uses is
either absent (`none`) or holds a value of the type the page reads it at.  The
wrapper gets and sets the two waveform caching flags. -/
structure Config where
  useHardwareAcceleration : Option WaveformWidgetBackend
  splitStereoSignal : Option Bool
  waveformOverviewType : Option Int
  beatGridAlpha : Option Int
  waveformCachingEnabled : Bool
  waveformGenerationWithAnalysisEnabled : Bool
  deriving DecidableEq, Repr

/-- The frequent read of lines 211-214, 346-349 and 391-394:
`getValue(ConfigKey("[Waveform]", "use_hardware_acceleration"), AllShader) != None`. -/
def Config.accelerationEnabled (c : Config) : Bool :=
  c.useHardwareAcceleration.getD WaveformWidgetBackend.AllShader != WaveformWidgetBackend.None

/-- What is fixed while the page lives and is not in the source file: the build
flag, the handle table of the factory, and the contents of the form file.

* `useQOpenGL`: whether `MIXXX_USE_QOPENGL` is defined.
* `typeToInt`: the integer value of an enumerator; `zeroType` is
  `static_cast<WaveformWidgetType::Type>(0)`, what a cast of the data of a
  missing item gives.  A cast of the data of an existing item gives back the
  type the constructor stored.
* `findHandleIndexFromType`, `setWidgetTypeFromHandle current handle force`
  (the render type of the factory after the call) and
  `widgetTypeSupportsUntilMark` belong to the factory.
* `toUntilMarkAlign`, `toUntilMarkAlignIndex`: the static conversions of the
  factory.
* `waveformTypeItems`: the data column of `waveformTypeComboBox` after the
  constructor filled and sorted it (lines 63-68).
* `waveformMinZoom`, `waveformMaxZoom`: the `static_cast<int>` of
  `s_waveformMinZoom` and `s_waveformMaxZoom` (lines 71-72).
* the ranges of the spin boxes and sliders. -/
structure Env where
  useQOpenGL : Bool
  typeToInt : WaveformWidgetType → Int
  zeroType : WaveformWidgetType
  findHandleIndexFromType : WaveformWidgetType → Int
  setWidgetTypeFromHandle : WaveformWidgetType → Int → Bool → WaveformWidgetType
  widgetTypeSupportsUntilMark : WaveformWidgetFactory → Bool
  toUntilMarkAlign : Int → Int
  toUntilMarkAlignIndex : Int → Int
  waveformTypeItems : List WaveformWidgetType
  waveformMinZoom : Int
  waveformMaxZoom : Int
  frameRateSpinBox : IntRange
  frameRateSlider : IntRange
  endOfTrackWarningTimeSpinBox : IntRange
  endOfTrackWarningTimeSlider : IntRange
  beatGridAlphaSpinBox : IntRange
  beatGridAlphaSlider : IntRange
  playMarkerPositionSlider : IntRange
  untilMarkTextPointSizeSpinBox : IntRange
  allVisualGain : DoubleForm
  lowVisualGain : DoubleForm
  midVisualGain : DoubleForm
  highVisualGain : DoubleForm

/-- Lines 54-56: the constructor adds three items to the overview combo box. -/
def waveformOverviewCount : Nat := 3

/-- Lines 78-80: the constructor adds three items to the alignment combo box. -/
def untilMarkAlignCount : Nat := 3

/-- Lines 71-75: the constructor adds one zoom item for each integer from the
minimum zoom to the maximum zoom. -/
def Env.defaultZoomCount (env : Env) : Nat :=
  (env.waveformMaxZoom - env.waveformMinZoom + 1).toNat

/-- The widgets of the page. -/
structure Widgets where
  openGlStatusData : String
  useAccelerationCheckBox : QCheckBox
  splitLeftRightCheckBox : QCheckBox
  waveformTypeComboBox : QComboBox
  frameRateSpinBox : QIntWidget
  frameRateSlider : QIntWidget
  endOfTrackWarningTimeSpinBox : QIntWidget
  endOfTrackWarningTimeSlider : QIntWidget
  beatGridAlphaSpinBox : QIntWidget
  beatGridAlphaSlider : QIntWidget
  playMarkerPositionSlider : QIntWidget
  synchronizeZoomCheckBox : QCheckBox
  normalizeOverviewCheckBox : QCheckBox
  allVisualGain : QDoubleSpinBox
  lowVisualGain : QDoubleSpinBox
  midVisualGain : QDoubleSpinBox
  highVisualGain : QDoubleSpinBox
  defaultZoomComboBox : QComboBox
  waveformOverviewComboBox : QComboBox
  untilMarkShowBeatsCheckBox : QCheckBox
  untilMarkShowTimeCheckBox : QCheckBox
  untilMarkAlignLabelEnabled : Bool
  untilMarkAlignComboBox : QComboBox
  untilMarkTextPointSizeLabelEnabled : Bool
  untilMarkTextPointSizeSpinBox : QIntWidget
  requiresGLSLLabelVisible : Bool
  enableWaveformCaching : QCheckBox
  enableWaveformGenerationWithAnalysis : QCheckBox
  waveformDiskUsageBytes : Nat
  deriving DecidableEq, Repr

/-- Everything a slot of the page reads or writes.

* `configWrites`: the keys written with `set` or `setValue`, latest first.
* `reloadUserInterfaceCount`: how often `reloadUserInterface` was emitted.
* `connected`: false while the constructor runs `slotUpdate` (line 85), true
  once the `connect` calls of lines 87-196 are made.
* `diskUsageWaveform`, `diskUsageWavesummary`: what `getDiskUsageInBytes`
  returns for the two analysis types. -/
structure State where
  factory : WaveformWidgetFactory
  config : Config
  configWrites : List ConfigKey
  reloadUserInterfaceCount : Nat
  connected : Bool
  diskUsageWaveform : Nat
  diskUsageWavesummary : Nat
  ui : Widgets
  deriving DecidableEq, Repr

/-! ## Reading the combo box of render types -/

/-- The render type held by the item at `index` of `waveformTypeComboBox`:
`static_cast<WaveformWidgetType::Type>(itemData(index).toInt())`.  An index
that names no item has no data, which reads as `0`. -/
def Env.itemType (env : Env) (index : Int) : WaveformWidgetType :=
  if 0 ≤ index then (env.waveformTypeItems.get? index.toNat).getD env.zeroType
  else env.zeroType

/-! ## Slots without widget effects -/

/-- Lines 327-329. -/
def slotSetFrameRate (frameRate : Int) (s : State) : State :=
  { s with factory.frameRate := frameRate }

/-- Lines 331-333. -/
def slotSetWaveformEndRender (endTime : Int) (s : State) : State :=
  { s with factory.endOfTrackWarningTime := endTime }

/-- Lines 452-455. -/
def slotSetBeatGridAlpha (alpha : Int) (s : State) : State :=
  { s with
    config.beatGridAlpha := some alpha
    configWrites := ConfigKey.beatGridAlpha :: s.configWrites
    factory.beatGridAlpha := alpha }

/-- Lines 405-408. -/
def slotSetWaveformOverviewType (index : Int) (s : State) : State :=
  { s with
    config.waveformOverviewType := some index
    configWrites := ConfigKey.waveformOverviewType :: s.configWrites
    reloadUserInterfaceCount := s.reloadUserInterfaceCount + 1 }

/-- Lines 410-412. -/
def slotSetDefaultZoom (index : Int) (s : State) : State :=
  { s with factory.defaultZoom := ((index + 1 : Int) : ℚ) }

/-- Lines 414-416. -/
def slotSetZoomSynchronization (checked : Bool) (s : State) : State :=
  { s with factory.zoomSync := checked }

/-- Lines 418-420. -/
def slotSetVisualGainAll (gain : ℚ) (s : State) : State :=
  { s with factory := s.factory.setVisualGain BandIndex.All gain }

/-- Lines 422-424. -/
def slotSetVisualGainLow (gain : ℚ) (s : State) : State :=
  { s with factory := s.factory.setVisualGain BandIndex.Low gain }

/-- Lines 426-428. -/
def slotSetVisualGainMid (gain : ℚ) (s : State) : State :=
  { s with factory := s.factory.setVisualGain BandIndex.Mid gain }

/-- Lines 430-432. -/
def slotSetVisualGainHigh (gain : ℚ) (s : State) : State :=
  { s with factory := s.factory.setVisualGain BandIndex.High gain }

/-- Lines 434-436. -/
def slotSetNormalizeOverview (normalize : Bool) (s : State) : State :=
  { s with factory.overviewNormalized := normalize }

/-- Lines 457-461.  The quotient `position / 100.0` is exact here; the double of
the code is the nearest double to it, which line 248 of `slotUpdate` can truncate
to the integer below `position`. -/
def slotSetPlayMarkerPosition (position : Int) (s : State) : State :=
  { s with factory.playMarkerPosition := (position : ℚ) / 100 }

/-- Lines 463-465. -/
def slotSetUntilMarkShowBeats (checked : Bool) (s : State) : State :=
  { s with factory.untilMarkShowBeats := checked }

/-- Lines 467-469. -/
def slotSetUntilMarkShowTime (checked : Bool) (s : State) : State :=
  { s with factory.untilMarkShowTime := checked }

/-- Lines 471-474. -/
def slotSetUntilMarkAlign (env : Env) (index : Int) (s : State) : State :=
  { s with factory.untilMarkAlign := env.toUntilMarkAlign index }

/-- Lines 476-478. -/
def slotSetUntilMarkTextPointSize (value : Int) (s : State) : State :=
  { s with factory.untilMarkTextPointSize := value }

/-- Lines 480-492: the label shows the sum of the two disk usages (the sizes
stay far below the range of `size_t`; the text around the number is left out). -/
def calculateCachedWaveformDiskUsage (s : State) : State :=
  { s with ui.waveformDiskUsageBytes := s.diskUsageWaveform + s.diskUsageWavesummary }

/-- Lines 444-450.  Modelled from the spec: the analysis data-access object
deletes the cached rows of a type, after which their disk usage is zero. -/
def slotClearCachedWaveforms (s : State) : State :=
  calculateCachedWaveformDiskUsage { s with diskUsageWaveform := 0, diskUsageWavesummary := 0 }

/-- Lines 385-403. -/
def updateEnableUntilMark (env : Env) (s : State) : State :=
  let enabled :=
    if env.useQOpenGL then
      env.widgetTypeSupportsUntilMark s.factory && s.config.accelerationEnabled
    else false
  { s with
    ui.untilMarkShowBeatsCheckBox := s.ui.untilMarkShowBeatsCheckBox.setEnabled enabled
    ui.untilMarkShowTimeCheckBox := s.ui.untilMarkShowTimeCheckBox.setEnabled enabled
    ui.untilMarkAlignLabelEnabled := enabled
    ui.untilMarkAlignComboBox.enabled := enabled
    ui.untilMarkTextPointSizeLabelEnabled := enabled
    ui.untilMarkTextPointSizeSpinBox.enabled := enabled
    ui.requiresGLSLLabelVisible := !enabled }

/-- Lines 335-353. -/
def slotSetWaveformType (env : Env) (index : Int) (s : State) : State :=
  if index < 0 then s
  else
    let type := env.itemType index
    let s := { s with factory.type :=
      env.setWidgetTypeFromHandle s.factory.type (env.findHandleIndexFromType type) false }
    let s := { s with ui.useAccelerationCheckBox :=
      setAccelerationCheckboxProperty s.factory.type s.ui.useAccelerationCheckBox }
    let isAccelerationEnabled := s.config.accelerationEnabled
    let s := { s with ui.useAccelerationCheckBox :=
      s.ui.useAccelerationCheckBox.setChecked isAccelerationEnabled }
    let s := { s with ui.splitLeftRightCheckBox :=
      updateStereoSplitVisibility s.factory.type isAccelerationEnabled s.ui.splitLeftRightCheckBox }
    updateEnableUntilMark env s

/-- Lines 355-375. -/
def slotSetWaveformAcceleration (env : Env) (checked : Bool) (s : State) : State :=
  let s :=
    if checked then
      { s with
        config.useHardwareAcceleration :=
          some (if env.useQOpenGL then WaveformWidgetBackend.AllShader
            else WaveformWidgetBackend.GL)
        configWrites := ConfigKey.useHardwareAcceleration :: s.configWrites }
    else
      { s with
        config.useHardwareAcceleration := some WaveformWidgetBackend.None
        configWrites := ConfigKey.useHardwareAcceleration :: s.configWrites }
  let type := env.itemType s.ui.waveformTypeComboBox.currentIndex
  let s := { s with factory.type :=
    env.setWidgetTypeFromHandle s.factory.type (env.findHandleIndexFromType type) true }
  let s := { s with ui.splitLeftRightCheckBox :=
    updateStereoSplitVisibility type checked s.ui.splitLeftRightCheckBox }
  updateEnableUntilMark env s

/-- Lines 377-383. -/
def slotSetWaveformSplitSignal (env : Env) (checked : Bool) (s : State) : State :=
  let s := { s with
    config.splitStereoSignal := some checked
    configWrites := ConfigKey.splitStereoSignal :: s.configWrites }
  let type := env.itemType s.ui.waveformTypeComboBox.currentIndex
  { s with factory.type :=
    env.setWidgetTypeFromHandle s.factory.type (env.findHandleIndexFromType type) true }

/-- Lines 273-282. -/
def slotApply (s : State) : State :=
  let overviewtype := s.ui.waveformOverviewComboBox.currentIndex
  let s :=
    if some overviewtype ≠ s.config.waveformOverviewType then
      { s with
        config.waveformOverviewType := some overviewtype
        configWrites := ConfigKey.waveformOverviewType :: s.configWrites }
    else s
  let s := { s with
    config.waveformCachingEnabled := s.ui.enableWaveformCaching.checked
    configWrites := ConfigKey.enableWaveformCaching :: s.configWrites }
  { s with
    config.waveformGenerationWithAnalysisEnabled :=
      s.ui.enableWaveformGenerationWithAnalysis.checked
    configWrites := ConfigKey.generateWaveformsWithAnalysis :: s.configWrites }

/-! ## Widget calls that raise a connected signal

A setter changes the widget and, when that changes its value and the page is
connected, calls the slots connected to the signal (lines 87-196). -/

/-- The call `waveformTypeComboBox->setCurrentIndex(index)`; `currentIndexChanged`
is connected to `slotSetWaveformType` (lines 124-127). -/
def waveformTypeComboBox_setCurrentIndex (env : Env) (index : Int) (s : State) : State :=
  let index := comboIndex env.waveformTypeItems.length index
  if index = s.ui.waveformTypeComboBox.currentIndex then s
  else
    let s := { s with ui.waveformTypeComboBox.currentIndex := index }
    if s.connected then slotSetWaveformType env index s else s

/-- The call `defaultZoomComboBox->setCurrentIndex(index)`; `currentIndexChanged`
is connected to `slotSetDefaultZoom` (lines 137-140). -/
def defaultZoomComboBox_setCurrentIndex (env : Env) (index : Int) (s : State) : State :=
  let index := comboIndex env.defaultZoomCount index
  if index = s.ui.defaultZoomComboBox.currentIndex then s
  else
    let s := { s with ui.defaultZoomComboBox.currentIndex := index }
    if s.connected then slotSetDefaultZoom index s else s

/-- The call `waveformOverviewComboBox->setCurrentIndex(index)`;
`currentIndexChanged` is connected to `slotSetWaveformOverviewType`
(lines 169-172). -/
def waveformOverviewComboBox_setCurrentIndex (index : Int) (s : State) : State :=
  let index := comboIndex waveformOverviewCount index
  if index = s.ui.waveformOverviewComboBox.currentIndex then s
  else
    let s := { s with ui.waveformOverviewComboBox.currentIndex := index }
    if s.connected then slotSetWaveformOverviewType index s else s

/-- The call `untilMarkAlignComboBox->setCurrentIndex(index)`;
`currentIndexChanged` is connected to `slotSetUntilMarkAlign` (lines 189-192). -/
def untilMarkAlignComboBox_setCurrentIndex (env : Env) (index : Int) (s : State) : State :=
  let index := comboIndex untilMarkAlignCount index
  if index = s.ui.untilMarkAlignComboBox.currentIndex then s
  else
    let s := { s with ui.untilMarkAlignComboBox.currentIndex := index }
    if s.connected then slotSetUntilMarkAlign env index s else s

/-- The call `normalizeOverviewCheckBox->setChecked(b)`; `toggled` is connected
to `slotSetNormalizeOverview` (lines 161-164). -/
def normalizeOverviewCheckBox_setChecked (b : Bool) (s : State) : State :=
  let raised := s.ui.normalizeOverviewCheckBox.toggles b
  let s := { s with ui.normalizeOverviewCheckBox := s.ui.normalizeOverviewCheckBox.setChecked b }
  if raised && s.connected then slotSetNormalizeOverview b s else s

/-- The call `untilMarkShowBeatsCheckBox->setChecked(b)`; `toggled` is connected
to `slotSetUntilMarkShowBeats` (lines 181-184). -/
def untilMarkShowBeatsCheckBox_setChecked (b : Bool) (s : State) : State :=
  let raised := s.ui.untilMarkShowBeatsCheckBox.toggles b
  let s := { s with ui.untilMarkShowBeatsCheckBox := s.ui.untilMarkShowBeatsCheckBox.setChecked b }
  if raised && s.connected then slotSetUntilMarkShowBeats b s else s

/-- The call `untilMarkShowTimeCheckBox->setChecked(b)`; `toggled` is connected
to `slotSetUntilMarkShowTime` (lines 185-188). -/
def untilMarkShowTimeCheckBox_setChecked (b : Bool) (s : State) : State :=
  let raised := s.ui.untilMarkShowTimeCheckBox.toggles b
  let s := { s with ui.untilMarkShowTimeCheckBox := s.ui.untilMarkShowTimeCheckBox.setChecked b }
  if raised && s.connected then slotSetUntilMarkShowTime b s else s

/-- The call `playMarkerPositionSlider->setValue(v)`; `valueChanged` is connected
to `slotSetPlayMarkerPosition` (lines 177-180). -/
def playMarkerPositionSlider_setValue (env : Env) (v : Int) (s : State) : State :=
  let v := env.playMarkerPositionSlider.sliderBound v
  if v = s.ui.playMarkerPositionSlider.value then s
  else
    let s := { s with ui.playMarkerPositionSlider.value := v }
    if s.connected then slotSetPlayMarkerPosition v s else s

/-- The call `untilMarkTextPointSizeSpinBox->setValue(v)`; `valueChanged` is
connected to `slotSetUntilMarkTextPointSize` (lines 193-196). -/
def untilMarkTextPointSizeSpinBox_setValue (env : Env) (v : Int) (s : State) : State :=
  let v := env.untilMarkTextPointSizeSpinBox.spinBound v
  if v = s.ui.untilMarkTextPointSizeSpinBox.value then s
  else
    let s := { s with ui.untilMarkTextPointSizeSpinBox.value := v }
    if s.connected then slotSetUntilMarkTextPointSize v s else s

/-- The call `allVisualGain->setValue(v)`; `valueChanged` is connected to
`slotSetVisualGainAll` (lines 145-148). -/
def allVisualGain_setValue (env : Env) (v : ℚ) (s : State) : State :=
  let v := env.allVisualGain.fit v
  if v = s.ui.allVisualGain.value then s
  else
    let s := { s with ui.allVisualGain.value := v }
    if s.connected then slotSetVisualGainAll v s else s

/-- The call `lowVisualGain->setValue(v)`; `valueChanged` is connected to
`slotSetVisualGainLow` (lines 149-152). -/
def lowVisualGain_setValue (env : Env) (v : ℚ) (s : State) : State :=
  let v := env.lowVisualGain.fit v
  if v = s.ui.lowVisualGain.value then s
  else
    let s := { s with ui.lowVisualGain.value := v }
    if s.connected then slotSetVisualGainLow v s else s

/-- The call `midVisualGain->setValue(v)`; `valueChanged` is connected to
`slotSetVisualGainMid` (lines 153-156). -/
def midVisualGain_setValue (env : Env) (v : ℚ) (s : State) : State :=
  let v := env.midVisualGain.fit v
  if v = s.ui.midVisualGain.value then s
  else
    let s := { s with ui.midVisualGain.value := v }
    if s.connected then slotSetVisualGainMid v s else s

/-- The call `highVisualGain->setValue(v)`; `valueChanged` is connected to
`slotSetVisualGainHigh` (lines 157-160). -/
def highVisualGain_setValue (env : Env) (v : ℚ) (s : State) : State :=
  let v := env.highVisualGain.fit v
  if v = s.ui.highVisualGain.value then s
  else
    let s := { s with ui.highVisualGain.value := v }
    if s.connected then slotSetVisualGainHigh v s else s

/-! ## The linked spin boxes and sliders

Lines 87-122 connect each of three spin boxes to its slot and to `setValue` of
its slider, and each slider to `setValue` of its spin box.  A `setValue` that
changes a value therefore calls `setValue` of the partner, which may call back.
The two calls are defined together, with a bound on the depth of the calls:
`none` means the bound was reached. -/

/-- The three linked pairs. -/
inductive Linked where
  | frameRate
  | endOfTrackWarningTime
  | beatGridAlpha
  deriving DecidableEq, Repr

/-- The range of the spin box of a pair. -/
def Env.spinRange (env : Env) : Linked → IntRange
  | Linked.frameRate => env.frameRateSpinBox
  | Linked.endOfTrackWarningTime => env.endOfTrackWarningTimeSpinBox
  | Linked.beatGridAlpha => env.beatGridAlphaSpinBox

/-- The range of the slider of a pair. -/
def Env.sliderRange (env : Env) : Linked → IntRange
  | Linked.frameRate => env.frameRateSlider
  | Linked.endOfTrackWarningTime => env.endOfTrackWarningTimeSlider
  | Linked.beatGridAlpha => env.beatGridAlphaSlider

/-- The value of the spin box of a pair. -/
def Widgets.spinValue (w : Widgets) : Linked → Int
  | Linked.frameRate => w.frameRateSpinBox.value
  | Linked.endOfTrackWarningTime => w.endOfTrackWarningTimeSpinBox.value
  | Linked.beatGridAlpha => w.beatGridAlphaSpinBox.value

/-- The value of the slider of a pair. -/
def Widgets.sliderValue (w : Widgets) : Linked → Int
  | Linked.frameRate => w.frameRateSlider.value
  | Linked.endOfTrackWarningTime => w.endOfTrackWarningTimeSlider.value
  | Linked.beatGridAlpha => w.beatGridAlphaSlider.value

/-- Store a value in the spin box of a pair. -/
def Widgets.withSpinValue (w : Widgets) (v : Int) : Linked → Widgets
  | Linked.frameRate => { w with frameRateSpinBox.value := v }
  | Linked.endOfTrackWarningTime => { w with endOfTrackWarningTimeSpinBox.value := v }
  | Linked.beatGridAlpha => { w with beatGridAlphaSpinBox.value := v }

/-- Store a value in the slider of a pair. -/
def Widgets.withSliderValue (w : Widgets) (v : Int) : Linked → Widgets
  | Linked.frameRate => { w with frameRateSlider.value := v }
  | Linked.endOfTrackWarningTime => { w with endOfTrackWarningTimeSlider.value := v }
  | Linked.beatGridAlpha => { w with beatGridAlphaSlider.value := v }

/-- The slot connected to `valueChanged` of the spin box of a pair
(lines 87-98). -/
def spinBoxSlot : Linked → Int → State → State
  | Linked.frameRate => slotSetFrameRate
  | Linked.endOfTrackWarningTime => slotSetWaveformEndRender
  | Linked.beatGridAlpha => slotSetBeatGridAlpha

mutual
/-- The call `setValue(v)` on the spin box of a pair: its slot is connected
first, `setValue` of the slider second. -/
def spinBoxSetValue (env : Env) : Nat → Linked → Int → State → Option State
  | 0, _, _, _ => none
  | fuel + 1, p, v, s =>
    let v := (env.spinRange p).spinBound v
    if v = s.ui.spinValue p then some s
    else
      let s := { s with ui := s.ui.withSpinValue v p }
      if s.connected then sliderSetValue env fuel p v (spinBoxSlot p v s) else some s
/-- The call `setValue(v)` on the slider of a pair: `setValue` of the spin box
is connected. -/
def sliderSetValue (env : Env) : Nat → Linked → Int → State → Option State
  | 0, _, _, _ => none
  | fuel + 1, p, v, s =>
    let v := (env.sliderRange p).sliderBound v
    if v = s.ui.sliderValue p then some s
    else
      let s := { s with ui := s.ui.withSliderValue v p }
      if s.connected then spinBoxSetValue env fuel p v s else some s
end

/-! ## `slotUpdate` and `slotResetToDefaults` -/

/-- Lines 207-234 of `slotUpdate`. -/
def slotUpdateRenderType (env : Env) (s : State) : State :=
  let glAvailable := s.factory.openGlAvailable || s.factory.openGlesAvailable
  let isAccelerationEnabled := glAvailable && s.config.accelerationEnabled
  let s :=
    if glAvailable then
      { s with
        ui.openGlStatusData := s.factory.openGLVersion
        ui.useAccelerationCheckBox :=
          (s.ui.useAccelerationCheckBox.setEnabled true).setChecked isAccelerationEnabled }
    else
      { s with
        ui.openGlStatusData := "OpenGL not available" ++ ": " ++ s.factory.openGLVersion
        ui.useAccelerationCheckBox :=
          (s.ui.useAccelerationCheckBox.setEnabled false).setChecked false }
  let currentIndex := findData (fun t => t == s.factory.type) env.waveformTypeItems
  let s :=
    if currentIndex ≠ -1 ∧ s.ui.waveformTypeComboBox.currentIndex ≠ currentIndex then
      waveformTypeComboBox_setCurrentIndex env currentIndex s
    else s
  let s := { s with ui.splitLeftRightCheckBox :=
    s.ui.splitLeftRightCheckBox.setChecked (s.config.splitStereoSignal.getD false) }
  let s := { s with ui.useAccelerationCheckBox :=
    setAccelerationCheckboxProperty s.factory.type s.ui.useAccelerationCheckBox }
  let s := { s with ui.splitLeftRightCheckBox :=
    updateStereoSplitVisibility s.factory.type isAccelerationEnabled s.ui.splitLeftRightCheckBox }
  updateEnableUntilMark env s

/-- Lines 236-257 of `slotUpdate`. -/
def slotUpdateValues (env : Env) (fuel : Nat) (s : State) : Option State := do
  let s ← spinBoxSetValue env fuel Linked.frameRate s.factory.frameRate s
  let s ← sliderSetValue env fuel Linked.frameRate s.factory.frameRate s
  let s ← spinBoxSetValue env fuel Linked.endOfTrackWarningTime s.factory.endOfTrackWarningTime s
  let s ← sliderSetValue env fuel Linked.endOfTrackWarningTime s.factory.endOfTrackWarningTime s
  let s := { s with ui.synchronizeZoomCheckBox :=
    s.ui.synchronizeZoomCheckBox.setChecked s.factory.zoomSync }
  let s := allVisualGain_setValue env (s.factory.getVisualGain BandIndex.All) s
  let s := lowVisualGain_setValue env (s.factory.getVisualGain BandIndex.Low) s
  let s := midVisualGain_setValue env (s.factory.getVisualGain BandIndex.Mid) s
  let s := highVisualGain_setValue env (s.factory.getVisualGain BandIndex.High) s
  let s := normalizeOverviewCheckBox_setChecked s.factory.overviewNormalized s
  let s := defaultZoomComboBox_setCurrentIndex env (truncToInt s.factory.defaultZoom - 1) s
  let s := playMarkerPositionSlider_setValue env (truncToInt (s.factory.playMarkerPosition * 100)) s
  let s ← spinBoxSetValue env fuel Linked.beatGridAlpha s.factory.beatGridAlpha s
  let s ← sliderSetValue env fuel Linked.beatGridAlpha s.factory.beatGridAlpha s
  let s := untilMarkShowBeatsCheckBox_setChecked s.factory.untilMarkShowBeats s
  let s := untilMarkShowTimeCheckBox_setChecked s.factory.untilMarkShowTime s
  let s := untilMarkAlignComboBox_setCurrentIndex env
    (env.toUntilMarkAlignIndex s.factory.untilMarkAlign) s
  some (untilMarkTextPointSizeSpinBox_setValue env s.factory.untilMarkTextPointSize s)

/-- Lines 259-270 of `slotUpdate`. -/
def slotUpdateOverview (s : State) : State :=
  let overviewType := s.config.waveformOverviewType.getD 2
  let s :=
    if overviewType ≠ s.ui.waveformOverviewComboBox.currentIndex then
      waveformOverviewComboBox_setCurrentIndex overviewType s
    else s
  let s := { s with ui.enableWaveformCaching :=
    s.ui.enableWaveformCaching.setChecked s.config.waveformCachingEnabled }
  let generate := s.config.waveformGenerationWithAnalysisEnabled
  let s := { s with ui.enableWaveformGenerationWithAnalysis :=
    s.ui.enableWaveformGenerationWithAnalysis.setChecked generate }
  calculateCachedWaveformDiskUsage s

/-- Lines 204-271. -/
def slotUpdate (env : Env) (fuel : Nat) (s : State) : Option State :=
  (slotUpdateValues env fuel (slotUpdateRenderType env s)).map slotUpdateOverview

/-- Lines 284-325. -/
def slotResetToDefaults (env : Env) (fuel : Nat) (s : State) : Option State := do
  let defaultIndex :=
    findData (fun t => env.typeToInt t == env.findHandleIndexFromType kDefaultWaveform)
      env.waveformTypeItems
  let s :=
    if defaultIndex ≠ -1 ∧ s.ui.waveformTypeComboBox.currentIndex ≠ defaultIndex then
      waveformTypeComboBox_setCurrentIndex env defaultIndex s
    else s
  let s := allVisualGain_setValue env 1 s
  let s := lowVisualGain_setValue env 1 s
  let s := midVisualGain_setValue env 1 s
  let s := highVisualGain_setValue env 1 s
  let s := defaultZoomComboBox_setCurrentIndex env (3 + 1) s
  let s := { s with ui.synchronizeZoomCheckBox := s.ui.synchronizeZoomCheckBox.setChecked true }
  let s := waveformOverviewComboBox_setCurrentIndex 2 s
  let s := normalizeOverviewCheckBox_setChecked false s
  let s ← sliderSetValue env fuel Linked.frameRate 60 s
  let s ← sliderSetValue env fuel Linked.endOfTrackWarningTime 30 s
  let s := { s with ui.enableWaveformCaching := s.ui.enableWaveformCaching.setChecked true }
  let s := { s with ui.enableWaveformGenerationWithAnalysis :=
    s.ui.enableWaveformGenerationWithAnalysis.setChecked false }
  let s ← sliderSetValue env fuel Linked.beatGridAlpha 90 s
  let s ← spinBoxSetValue env fuel Linked.beatGridAlpha 90 s
  some (playMarkerPositionSlider_setValue env 50 s)

/-! ## A concrete page

A build, a factory and a form on which the slots are evaluated. -/

/-- The handle table of the example factory. -/
def handles0 : List WaveformWidgetType :=
  [WaveformWidgetType.Empty, WaveformWidgetType.Simple, WaveformWidgetType.RGB,
    WaveformWidgetType.Stacked, WaveformWidgetType.VSyncTest]

/-- The integer values of the example enumeration. -/
def typeToInt0 : WaveformWidgetType → Int
  | WaveformWidgetType.Empty => 0
  | WaveformWidgetType.Simple => 1
  | WaveformWidgetType.VSyncTest => 2
  | WaveformWidgetType.RGB => 3
  | WaveformWidgetType.Stacked => 4
  | WaveformWidgetType.Other code => code + 5

/-- The example factory sets the type of the handle, and `Empty` when there is
no such handle. -/
def setWidgetTypeFromHandle0 (_current : WaveformWidgetType) (handle : Int) (_force : Bool) :
    WaveformWidgetType :=
  if 0 ≤ handle then (handles0.get? handle.toNat).getD WaveformWidgetType.Empty
  else WaveformWidgetType.Empty

/-- A double spin box from 0 to 10 that rounds nothing. -/
def gainForm0 : DoubleForm :=
  { minimum := 0, maximum := 10, round := fun v => v }

/-- An example of what is fixed while the page lives. -/
def env0 : Env :=
  { useQOpenGL := true
    typeToInt := typeToInt0
    zeroType := WaveformWidgetType.Empty
    findHandleIndexFromType := fun t => findData (fun h => h == t) handles0
    setWidgetTypeFromHandle := setWidgetTypeFromHandle0
    widgetTypeSupportsUntilMark := fun f => f.type == WaveformWidgetType.RGB
    toUntilMarkAlign := fun i => i
    toUntilMarkAlignIndex := fun a => a
    waveformTypeItems :=
      [WaveformWidgetType.Empty, WaveformWidgetType.RGB, WaveformWidgetType.Simple,
        WaveformWidgetType.Stacked, WaveformWidgetType.VSyncTest]
    waveformMinZoom := 1
    waveformMaxZoom := 10
    frameRateSpinBox := { minimum := 10, maximum := 120 }
    frameRateSlider := { minimum := 10, maximum := 120 }
    endOfTrackWarningTimeSpinBox := { minimum := 0, maximum := 60 }
    endOfTrackWarningTimeSlider := { minimum := 0, maximum := 60 }
    beatGridAlphaSpinBox := { minimum := 0, maximum := 100 }
    beatGridAlphaSlider := { minimum := 0, maximum := 100 }
    playMarkerPositionSlider := { minimum := 0, maximum := 100 }
    untilMarkTextPointSizeSpinBox := { minimum := 1, maximum := 50 }
    allVisualGain := gainForm0
    lowVisualGain := gainForm0
    midVisualGain := gainForm0
    highVisualGain := gainForm0 }

/-- An example factory. -/
def factory0 : WaveformWidgetFactory :=
  { type := WaveformWidgetType.RGB
    openGlAvailable := true
    openGlesAvailable := false
    openGLVersion := "4.6"
    frameRate := 30
    endOfTrackWarningTime := 20
    zoomSync := false
    visualGainAll := 2
    visualGainLow := 1
    visualGainMid := 1
    visualGainHigh := 3
    overviewNormalized := true
    defaultZoom := 3
    playMarkerPosition := 0
    beatGridAlpha := 70
    untilMarkShowBeats := true
    untilMarkShowTime := false
    untilMarkAlign := 1
    untilMarkTextPointSize := 24 }

/-- An example configuration store in which no key of the page is present. -/
def config0 : Config :=
  { useHardwareAcceleration := none
    splitStereoSignal := none
    waveformOverviewType := none
    beatGridAlpha := none
    waveformCachingEnabled := true
    waveformGenerationWithAnalysisEnabled := false }

/-- An example check box. -/
def checkBox0 : QCheckBox :=
  { enabled := true, checked := false, visible := true, signalsBlocked := false }

/-- The example widgets, as the form file leaves them. -/
def widgets0 : Widgets :=
  { openGlStatusData := ""
    useAccelerationCheckBox := checkBox0
    splitLeftRightCheckBox := checkBox0
    waveformTypeComboBox := { currentIndex := 0, enabled := true }
    frameRateSpinBox := { value := 10, enabled := true }
    frameRateSlider := { value := 10, enabled := true }
    endOfTrackWarningTimeSpinBox := { value := 0, enabled := true }
    endOfTrackWarningTimeSlider := { value := 0, enabled := true }
    beatGridAlphaSpinBox := { value := 0, enabled := true }
    beatGridAlphaSlider := { value := 0, enabled := true }
    playMarkerPositionSlider := { value := 0, enabled := true }
    synchronizeZoomCheckBox := checkBox0
    normalizeOverviewCheckBox := checkBox0
    allVisualGain := { value := 0 }
    lowVisualGain := { value := 0 }
    midVisualGain := { value := 0 }
    highVisualGain := { value := 0 }
    defaultZoomComboBox := { currentIndex := 0, enabled := true }
    waveformOverviewComboBox := { currentIndex := 0, enabled := true }
    untilMarkShowBeatsCheckBox := checkBox0
    untilMarkShowTimeCheckBox := checkBox0
    untilMarkAlignLabelEnabled := true
    untilMarkAlignComboBox := { currentIndex := 0, enabled := true }
    untilMarkTextPointSizeLabelEnabled := true
    untilMarkTextPointSizeSpinBox := { value := 1, enabled := true }
    requiresGLSLLabelVisible := false
    enableWaveformCaching := checkBox0
    enableWaveformGenerationWithAnalysis := checkBox0
    waveformDiskUsageBytes := 0 }

/-- An example state of the connected page. -/
def state0 : State :=
  { factory := factory0
    config := config0
    configWrites := []
    reloadUserInterfaceCount := 0
    connected := true
    diskUsageWaveform := 1000
    diskUsageWavesummary := 24
    ui := widgets0 }

/-- The part of the state that lines 236-257 of `slotUpdate` leave alone. -/
structure Kept where
  type : WaveformWidgetType
  openGlAvailable : Bool
  openGlesAvailable : Bool
  zoomSync : Bool
  useHardwareAcceleration : Option WaveformWidgetBackend
  splitStereoSignal : Option Bool
  waveformOverviewType : Option Int
  waveformCachingEnabled : Bool
  waveformGenerationWithAnalysisEnabled : Bool
  reloadUserInterfaceCount : Nat
  connected : Bool
  diskUsageWaveform : Nat
  diskUsageWavesummary : Nat
  openGlStatusData : String
  useAccelerationCheckBox : QCheckBox
  splitLeftRightCheckBox : QCheckBox
  waveformTypeComboBox : QComboBox
  waveformOverviewComboBox : QComboBox
  enableWaveformCaching : QCheckBox
  enableWaveformGenerationWithAnalysis : QCheckBox
  requiresGLSLLabelVisible : Bool
  waveformDiskUsageBytes : Nat

/-- The part of a state that lines 236-257 of `slotUpdate` leave alone. -/
def State.kept (s : State) : Kept :=
  { type := s.factory.type
    openGlAvailable := s.factory.openGlAvailable
    openGlesAvailable := s.factory.openGlesAvailable
    zoomSync := s.factory.zoomSync
    useHardwareAcceleration := s.config.useHardwareAcceleration
    splitStereoSignal := s.config.splitStereoSignal
    waveformOverviewType := s.config.waveformOverviewType
    waveformCachingEnabled := s.config.waveformCachingEnabled
    waveformGenerationWithAnalysisEnabled := s.config.waveformGenerationWithAnalysisEnabled
    reloadUserInterfaceCount := s.reloadUserInterfaceCount
    connected := s.connected
    diskUsageWaveform := s.diskUsageWaveform
    diskUsageWavesummary := s.diskUsageWavesummary
    openGlStatusData := s.ui.openGlStatusData
    useAccelerationCheckBox := s.ui.useAccelerationCheckBox
    splitLeftRightCheckBox := s.ui.splitLeftRightCheckBox
    waveformTypeComboBox := s.ui.waveformTypeComboBox
    waveformOverviewComboBox := s.ui.waveformOverviewComboBox
    enableWaveformCaching := s.ui.enableWaveformCaching
    enableWaveformGenerationWithAnalysis := s.ui.enableWaveformGenerationWithAnalysis
    requiresGLSLLabelVisible := s.ui.requiresGLSLLabelVisible
    waveformDiskUsageBytes := s.ui.waveformDiskUsageBytes }

/-- Whether a value lies inside a range. -/
def IntRange.holds (r : IntRange) (v : Int) : Prop :=
  r.minimum ≤ v ∧ v ≤ r.maximum

/-- The state with a configuration in which acceleration is switched off. -/
def stateNoAcceleration : State :=
  { state0 with config.useHardwareAcceleration := some WaveformWidgetBackend.None }

/-- The values of the factory that `slotUpdate` shows in the widgets named by the
update invariant: what the getters return, the default zoom as the integer the
page makes of it. -/
structure Shown where
  frameRate : Int
  endOfTrackWarningTime : Int
  zoomSync : Bool
  visualGainAll : ℚ
  visualGainLow : ℚ
  visualGainMid : ℚ
  visualGainHigh : ℚ
  overviewNormalized : Bool
  defaultZoom : Int
  beatGridAlpha : Int
  untilMarkShowBeats : Bool
  untilMarkShowTime : Bool
  untilMarkTextPointSize : Int

/-- The shown values of a factory. -/
def WaveformWidgetFactory.shown (f : WaveformWidgetFactory) : Shown :=
  { frameRate := f.frameRate
    endOfTrackWarningTime := f.endOfTrackWarningTime
    zoomSync := f.zoomSync
    visualGainAll := f.getVisualGain BandIndex.All
    visualGainLow := f.getVisualGain BandIndex.Low
    visualGainMid := f.getVisualGain BandIndex.Mid
    visualGainHigh := f.getVisualGain BandIndex.High
    overviewNormalized := f.overviewNormalized
    defaultZoom := truncToInt f.defaultZoom
    beatGridAlpha := f.beatGridAlpha
    untilMarkShowBeats := f.untilMarkShowBeats
    untilMarkShowTime := f.untilMarkShowTime
    untilMarkTextPointSize := f.untilMarkTextPointSize }

/-- The values of a factory lie inside the ranges of the widgets that show them:
each integer lies between the minimum and the maximum of its spin box and of its
slider, each gain is a value its spin box holds as it is, and the default zoom
names an item of the zoom combo box. -/
def InRange (env : Env) (f : WaveformWidgetFactory) : Prop :=
  env.frameRateSpinBox.holds f.frameRate ∧
  env.frameRateSlider.holds f.frameRate ∧
  env.endOfTrackWarningTimeSpinBox.holds f.endOfTrackWarningTime ∧
  env.endOfTrackWarningTimeSlider.holds f.endOfTrackWarningTime ∧
  env.beatGridAlphaSpinBox.holds f.beatGridAlpha ∧
  env.beatGridAlphaSlider.holds f.beatGridAlpha ∧
  env.untilMarkTextPointSizeSpinBox.holds f.untilMarkTextPointSize ∧
  env.allVisualGain.fit (f.getVisualGain BandIndex.All) = f.getVisualGain BandIndex.All ∧
  env.lowVisualGain.fit (f.getVisualGain BandIndex.Low) = f.getVisualGain BandIndex.Low ∧
  env.midVisualGain.fit (f.getVisualGain BandIndex.Mid) = f.getVisualGain BandIndex.Mid ∧
  env.highVisualGain.fit (f.getVisualGain BandIndex.High) = f.getVisualGain BandIndex.High ∧
  0 ≤ truncToInt f.defaultZoom - 1 ∧
  truncToInt f.defaultZoom - 1 < env.defaultZoomCount

instance (r : IntRange) (v : Int) : Decidable (r.holds v) := by
  unfold IntRange.holds
  infer_instance

instance (env : Env) (f : WaveformWidgetFactory) : Decidable (InRange env f) := by
  unfold InRange
  infer_instance

/-- The defaults that `slotResetToDefaults` sets lie inside the ranges of the form:
60 in the frame-rate slider and spin box, 30 in the end-of-track slider and spin
box, 90 in the beat-grid alpha slider and spin box, 50 in the play-marker slider,
and each gain spin box holds the value 1 as it is. -/
def DefaultsInRange (env : Env) : Prop :=
  env.frameRateSlider.holds 60 ∧
  env.frameRateSpinBox.holds 60 ∧
  env.endOfTrackWarningTimeSlider.holds 30 ∧
  env.endOfTrackWarningTimeSpinBox.holds 30 ∧
  env.beatGridAlphaSlider.holds 90 ∧
  env.beatGridAlphaSpinBox.holds 90 ∧
  env.playMarkerPositionSlider.holds 50 ∧
  env.allVisualGain.fit 1 = 1 ∧
  env.lowVisualGain.fit 1 = 1 ∧
  env.midVisualGain.fit 1 = 1 ∧
  env.highVisualGain.fit 1 = 1

instance (env : Env) : Decidable (DefaultsInRange env) := by
  unfold DefaultsInRange
  infer_instance

/-- The default zoom of the factory, the zoom combo box and the connection flag:
what `defaultZoomComboBox->setCurrentIndex` reads and writes. -/
def State.zoomPart (s : State) : ℚ × QComboBox × Bool :=
  (s.factory.defaultZoom, s.ui.defaultZoomComboBox, s.connected)

/-- The example state when neither OpenGL nor OpenGL ES is available; the render
type of the factory is `RGB`. -/
def stateNoGl : State :=
  { state0 with factory.openGlAvailable := false }

/-- The example state when neither OpenGL nor OpenGL ES is available and the
render type of the factory is `Simple`. -/
def stateNoGlSimple : State :=
  { stateNoGl with factory.type := WaveformWidgetType.Simple }

/-- The integer values of a factory lie inside the ranges of the widgets that
show them: each lies between the minimum and the maximum of its spin box and of
its slider, and the default zoom names an item of the zoom combo box. -/
def InRangeInt (env : Env) (f : WaveformWidgetFactory) : Prop :=
  env.frameRateSpinBox.holds f.frameRate ∧
  env.frameRateSlider.holds f.frameRate ∧
  env.endOfTrackWarningTimeSpinBox.holds f.endOfTrackWarningTime ∧
  env.endOfTrackWarningTimeSlider.holds f.endOfTrackWarningTime ∧
  env.beatGridAlphaSpinBox.holds f.beatGridAlpha ∧
  env.beatGridAlphaSlider.holds f.beatGridAlpha ∧
  env.untilMarkTextPointSizeSpinBox.holds f.untilMarkTextPointSize ∧
  0 ≤ truncToInt f.defaultZoom - 1 ∧
  truncToInt f.defaultZoom - 1 < env.defaultZoomCount

instance (env : Env) (f : WaveformWidgetFactory) : Decidable (InRangeInt env f) := by
  unfold InRangeInt
  infer_instance

/-- A factory with its four gains blanked: what the gain spin boxes never
change. -/
def WaveformWidgetFactory.noGain (f : WaveformWidgetFactory) : WaveformWidgetFactory :=
  { f with visualGainAll := 0, visualGainLow := 0, visualGainMid := 0, visualGainHigh := 0 }

/-- Rounding to two decimals, a half rounded up. -/
def round2 (v : ℚ) : ℚ := ((⌊v * 100 + 1 / 2⌋ : Int) : ℚ) / 100

/-- A double spin box from 0 to 10 with two decimals. -/
def gainForm2 : DoubleForm :=
  { minimum := 0, maximum := 10, round := round2 }

/-- The example form with a two-decimal spin box for the gain of all bands. -/
def env1 : Env :=
  { env0 with allVisualGain := gainForm2 }

/-- The example page while the constructor runs `slotUpdate` (not yet connected),
with the gain 1.234 of all bands in the factory. -/
def state1 : State :=
  { state0 with connected := false, factory.visualGainAll := 617 / 500 }

/-- The example state with item 1 (`RGB`) selected in the render-type combo box. -/
def stateRgbSelected : State :=
  { state0 with ui.waveformTypeComboBox.currentIndex := 1 }

/-! # Theorems -/

/-! ## Helper lemmas: the check box of the acceleration and of the split -/

theorem setAccelerationCheckboxProperty_enabled (t : WaveformWidgetType) (c : QCheckBox) :
    (setAccelerationCheckboxProperty t c).enabled =
      !(kWaveformWithOnlyAcceleration.contains t || kWaveformWithoutAcceleration.contains t) := by
  cases t <;> simp [setAccelerationCheckboxProperty, kWaveformWithOnlyAcceleration,
    kWaveformWithoutAcceleration, QCheckBox.blockSignals, QCheckBox.setEnabled,
    QCheckBox.setChecked]

theorem setAccelerationCheckboxProperty_checked (t : WaveformWidgetType) (c : QCheckBox) :
    (setAccelerationCheckboxProperty t c).checked =
      if kWaveformWithOnlyAcceleration.contains t then true
      else if kWaveformWithoutAcceleration.contains t then false
      else c.checked := by
  cases t <;> simp [setAccelerationCheckboxProperty, kWaveformWithOnlyAcceleration,
    kWaveformWithoutAcceleration, QCheckBox.blockSignals, QCheckBox.setEnabled,
    QCheckBox.setChecked]

theorem updateStereoSplitVisibility_visible (t : WaveformWidgetType) (b : Bool) (c : QCheckBox) :
    (updateStereoSplitVisibility t b c).visible =
      (b && kWaveformWithSplitSignalSupport.contains t) := by
  simp [updateStereoSplitVisibility, QCheckBox.blockSignals, QCheckBox.setVisible]

theorem updateStereoSplitVisibility_checked (t : WaveformWidgetType) (b : Bool) (c : QCheckBox) :
    (updateStereoSplitVisibility t b c).checked = c.checked := by
  simp [updateStereoSplitVisibility, QCheckBox.blockSignals, QCheckBox.setVisible]

theorem splitSupport_iff (t : WaveformWidgetType) :
    kWaveformWithSplitSignalSupport.contains t = true ↔ t = WaveformWidgetType.RGB := by
  cases t <;> simp [kWaveformWithSplitSignalSupport]

theorem splitSupport_mem (t : WaveformWidgetType) :
    t ∈ kWaveformWithSplitSignalSupport ↔ t = WaveformWidgetType.RGB := by
  cases t <;> simp [kWaveformWithSplitSignalSupport]

theorem accelerationEnabled_iff (c : Config) :
    c.accelerationEnabled = true ↔
      c.useHardwareAcceleration.getD WaveformWidgetBackend.AllShader ≠
        WaveformWidgetBackend.None := by
  simp [Config.accelerationEnabled]

/-! ## C1 -/

/-- C1: for every combo box index `0 ≤ index`, after `slotSetWaveformType index` the
split-left/right check box is visible if and only if the stored
`use_hardware_acceleration` backend (default `AllShader`) is not `None` and the
resulting render type of the factory is `RGB`; a resulting type other than `RGB`
leaves the box hidden.  The slot does not change the configuration store. -/
theorem slotSetWaveformType_split_visible (env : Env) (index : Int) (s : State)
    (h : 0 ≤ index) :
    ((slotSetWaveformType env index s).ui.splitLeftRightCheckBox.visible = true ↔
      ((slotSetWaveformType env index s).config.useHardwareAcceleration.getD
          WaveformWidgetBackend.AllShader ≠ WaveformWidgetBackend.None ∧
        (slotSetWaveformType env index s).factory.type = WaveformWidgetType.RGB)) ∧
    ((slotSetWaveformType env index s).factory.type ≠ WaveformWidgetType.RGB →
      (slotSetWaveformType env index s).ui.splitLeftRightCheckBox.visible = false) ∧
    (slotSetWaveformType env index s).config = s.config := by
  have h0 : ¬ index < 0 := by omega
  simp only [slotSetWaveformType, if_neg h0, updateEnableUntilMark,
    updateStereoSplitVisibility_visible]
  refine ⟨?_, ?_, trivial⟩
  · simp [splitSupport_mem, accelerationEnabled_iff]
  · intro hne
    simp [splitSupport_mem, hne]

/-- C1, applied: item 1 of the example page is `RGB`, the key is absent, and the
split box ends visible. -/
theorem slotSetWaveformType_split_visible_witness :
    (0 : Int) ≤ 1 ∧
    (slotSetWaveformType env0 1 state0).ui.splitLeftRightCheckBox.visible = true ∧
    (slotSetWaveformType env0 1 state0).factory.type = WaveformWidgetType.RGB :=
  ⟨by decide,
    ((slotSetWaveformType_split_visible env0 1 state0 (by decide)).1).2 (by decide),
    by decide⟩

/-- C2: `setAccelerationCheckboxProperty` is decided by the two lookup tables.  For a
type of `kWaveformWithOnlyAcceleration` (Simple, Stacked) the box ends disabled and
checked, for a type of `kWaveformWithoutAcceleration` (VSyncTest, Empty) it ends
disabled and unchecked, for every other type it ends enabled with its checked state
unchanged; the tables are lists of exactly those types and are disjoint; the
signal-blocking flag is false on return. -/
theorem setAccelerationCheckboxProperty_tables (type : WaveformWidgetType) (checkbox : QCheckBox) :
    (kWaveformWithOnlyAcceleration.contains type = true ↔
        (type = WaveformWidgetType.Simple ∨ type = WaveformWidgetType.Stacked)) ∧
    (kWaveformWithoutAcceleration.contains type = true ↔
        (type = WaveformWidgetType.VSyncTest ∨ type = WaveformWidgetType.Empty)) ∧
    ¬ (kWaveformWithOnlyAcceleration.contains type = true ∧
        kWaveformWithoutAcceleration.contains type = true) ∧
    ((type = WaveformWidgetType.Simple ∨ type = WaveformWidgetType.Stacked) →
        (setAccelerationCheckboxProperty type checkbox).enabled = false ∧
        (setAccelerationCheckboxProperty type checkbox).checked = true) ∧
    ((type = WaveformWidgetType.VSyncTest ∨ type = WaveformWidgetType.Empty) →
        (setAccelerationCheckboxProperty type checkbox).enabled = false ∧
        (setAccelerationCheckboxProperty type checkbox).checked = false) ∧
    ((type ≠ WaveformWidgetType.Simple ∧ type ≠ WaveformWidgetType.Stacked ∧
        type ≠ WaveformWidgetType.VSyncTest ∧ type ≠ WaveformWidgetType.Empty) →
        (setAccelerationCheckboxProperty type checkbox).enabled = true ∧
        (setAccelerationCheckboxProperty type checkbox).checked = checkbox.checked) ∧
    (setAccelerationCheckboxProperty type checkbox).signalsBlocked = false ∧
    (setAccelerationCheckboxProperty type checkbox).visible = checkbox.visible := by
  cases type <;>
    simp [setAccelerationCheckboxProperty, kWaveformWithOnlyAcceleration,
      kWaveformWithoutAcceleration, QCheckBox.blockSignals, QCheckBox.setEnabled,
      QCheckBox.setChecked]


/-- C2, applied: `Simple` is in the first table, and the example box ends disabled
and checked. -/
theorem setAccelerationCheckboxProperty_tables_witness :
    (setAccelerationCheckboxProperty WaveformWidgetType.Simple checkBox0).enabled = false ∧
    (setAccelerationCheckboxProperty WaveformWidgetType.Simple checkBox0).checked = true :=
  (setAccelerationCheckboxProperty_tables WaveformWidgetType.Simple checkBox0).2.2.2.1
    (Or.inl rfl)

/-! ## C5 -/

/-- C5: after `slotApply` the stored `WaveformOverviewType` is the current index of
the overview combo box and the two caching flags are the states of their check
boxes; the overview key is written once when the stored value differs from the
index and not at all when it is equal; applying twice gives the configuration of
applying once; the widgets are not changed. -/
theorem slotApply_persists (s : State) :
    (slotApply s).config.waveformOverviewType =
      some s.ui.waveformOverviewComboBox.currentIndex ∧
    (slotApply s).config.waveformCachingEnabled = s.ui.enableWaveformCaching.checked ∧
    (slotApply s).config.waveformGenerationWithAnalysisEnabled =
      s.ui.enableWaveformGenerationWithAnalysis.checked ∧
    (slotApply s).configWrites.count ConfigKey.waveformOverviewType =
      s.configWrites.count ConfigKey.waveformOverviewType +
        (if s.config.waveformOverviewType = some s.ui.waveformOverviewComboBox.currentIndex
          then 0 else 1) ∧
    (slotApply (slotApply s)).config = (slotApply s).config ∧
    (slotApply s).ui = s.ui ∧
    (slotApply s).factory = s.factory := by
  by_cases h : s.config.waveformOverviewType = some s.ui.waveformOverviewComboBox.currentIndex
  · have h' : ¬ (some s.ui.waveformOverviewComboBox.currentIndex ≠
        s.config.waveformOverviewType) := by simp [h]
    simp [slotApply, h, h']
  · have h' : some s.ui.waveformOverviewComboBox.currentIndex ≠
        s.config.waveformOverviewType := fun e => h e.symm
    simp [slotApply, h, h']

/-! ## C9 -/

/-- C9: `slotSetWaveformType` with an index `index < 0` returns the state it was
given: the render type of the factory, the configuration store and every widget,
the acceleration, split and until-mark widgets among them, are unchanged. -/
theorem slotSetWaveformType_negative (env : Env) (index : Int) (s : State) (h : index < 0) :
    slotSetWaveformType env index s = s ∧
    (slotSetWaveformType env index s).factory.type = s.factory.type ∧
    (slotSetWaveformType env index s).config = s.config ∧
    (slotSetWaveformType env index s).ui.useAccelerationCheckBox = s.ui.useAccelerationCheckBox ∧
    (slotSetWaveformType env index s).ui.splitLeftRightCheckBox = s.ui.splitLeftRightCheckBox ∧
    (slotSetWaveformType env index s).ui.untilMarkShowBeatsCheckBox =
      s.ui.untilMarkShowBeatsCheckBox ∧
    (slotSetWaveformType env index s).ui.untilMarkShowTimeCheckBox =
      s.ui.untilMarkShowTimeCheckBox ∧
    (slotSetWaveformType env index s).ui.untilMarkAlignComboBox = s.ui.untilMarkAlignComboBox ∧
    (slotSetWaveformType env index s).ui.untilMarkTextPointSizeSpinBox =
      s.ui.untilMarkTextPointSizeSpinBox ∧
    (slotSetWaveformType env index s).ui.untilMarkAlignLabelEnabled =
      s.ui.untilMarkAlignLabelEnabled ∧
    (slotSetWaveformType env index s).ui.untilMarkTextPointSizeLabelEnabled =
      s.ui.untilMarkTextPointSizeLabelEnabled ∧
    (slotSetWaveformType env index s).ui.requiresGLSLLabelVisible =
      s.ui.requiresGLSLLabelVisible := by
  have e : slotSetWaveformType env index s = s := by
    simp [slotSetWaveformType, h]
  simp [e]

/-- C9, applied: the index `-1` of a cleared combo box leaves the example state as
it is. -/
theorem slotSetWaveformType_negative_witness :
    (-1 : Int) < 0 ∧ slotSetWaveformType env0 (-1) state0 = state0 :=
  ⟨by decide, (slotSetWaveformType_negative env0 (-1) state0 (by decide)).1⟩

/-! ## C10 -/

/-- C10: on the example page, selecting item 2 (`Simple`) while the store holds the
backend `None` leaves the acceleration box disabled and unchecked, and selecting
item 0 (`Empty`) while the key is absent leaves it disabled and checked: the
`setChecked` of line 350 overrides what `setAccelerationCheckboxProperty` set at
line 345. -/
theorem slotSetWaveformType_overrides_table :
    (slotSetWaveformType env0 2 stateNoAcceleration).factory.type = WaveformWidgetType.Simple ∧
    (slotSetWaveformType env0 2 stateNoAcceleration).ui.useAccelerationCheckBox.enabled = false ∧
    (slotSetWaveformType env0 2 stateNoAcceleration).ui.useAccelerationCheckBox.checked = false ∧
    (slotSetWaveformType env0 0 state0).factory.type = WaveformWidgetType.Empty ∧
    (slotSetWaveformType env0 0 state0).ui.useAccelerationCheckBox.enabled = false ∧
    (slotSetWaveformType env0 0 state0).ui.useAccelerationCheckBox.checked = true := by
  decide

/-! ## Helper lemmas: the linked spin boxes and sliders -/

theorem spinValue_withSpinValue (w : Widgets) (v : Int) (p : Linked) :
    (w.withSpinValue v p).spinValue p = v := by
  cases p <;> rfl

theorem sliderValue_withSpinValue (w : Widgets) (v : Int) (p : Linked) :
    (w.withSpinValue v p).sliderValue p = w.sliderValue p := by
  cases p <;> rfl

theorem sliderValue_withSliderValue (w : Widgets) (v : Int) (p : Linked) :
    (w.withSliderValue v p).sliderValue p = v := by
  cases p <;> rfl

theorem spinValue_withSliderValue (w : Widgets) (v : Int) (p : Linked) :
    (w.withSliderValue v p).spinValue p = w.spinValue p := by
  cases p <;> rfl

theorem spinBoxSlot_ui (p : Linked) (v : Int) (s : State) : (spinBoxSlot p v s).ui = s.ui := by
  cases p <;> rfl

theorem spinBoxSlot_connected (p : Linked) (v : Int) (s : State) :
    (spinBoxSlot p v s).connected = s.connected := by
  cases p <;> rfl

theorem spinBoxSlot_kept (p : Linked) (v : Int) (s : State) :
    (spinBoxSlot p v s).kept = s.kept := by
  cases p <;> rfl

theorem withSpinValue_kept (p : Linked) (v : Int) (s : State) :
    ({ s with ui := s.ui.withSpinValue v p } : State).kept = s.kept := by
  cases p <;> rfl

theorem withSliderValue_kept (p : Linked) (v : Int) (s : State) :
    ({ s with ui := s.ui.withSliderValue v p } : State).kept = s.kept := by
  cases p <;> rfl

/-- The bounds settle: what the slider takes from the spin box, the spin box
hands back unchanged on the second round. -/
theorem sliderBound_settles (a b : IntRange) (v : Int) :
    b.sliderBound (a.spinBound (b.sliderBound (a.spinBound v))) =
      b.sliderBound (a.spinBound v) := by
  simp only [IntRange.sliderBound, IntRange.spinBound]
  split_ifs <;> omega

/-- The bounds settle, starting from the slider. -/
theorem spinBound_settles (a b : IntRange) (v : Int) :
    a.spinBound (b.sliderBound (a.spinBound (b.sliderBound v))) =
      a.spinBound (b.sliderBound v) := by
  simp only [IntRange.sliderBound, IntRange.spinBound]
  split_ifs <;> omega

/-- A linked `setValue` leaves the kept part of the state alone, whatever the
depth bound. -/
theorem linked_kept (env : Env) (fuel : Nat) :
    ∀ (p : Linked) (v : Int) (s s' : State),
      (spinBoxSetValue env fuel p v s = some s' → s'.kept = s.kept) ∧
      (sliderSetValue env fuel p v s = some s' → s'.kept = s.kept) := by
  induction fuel with
  | zero =>
    intro p v s s'
    simp [spinBoxSetValue, sliderSetValue]
  | succ n ih =>
    intro p v s s'
    constructor
    · intro h
      simp only [spinBoxSetValue] at h
      split_ifs at h with h1 h2
      · cases h; rfl
      · rw [((ih p _ _ s').2 h), spinBoxSlot_kept, withSpinValue_kept]
      · cases h; exact withSpinValue_kept p _ s
    · intro h
      simp only [sliderSetValue] at h
      split_ifs at h with h1 h2
      · cases h; rfl
      · rw [((ih p _ _ s').1 h), withSliderValue_kept]
      · cases h; exact withSliderValue_kept p _ s

/-- The call `setValue` on a spin box of a pair returns once four nested calls
are allowed: the signals between the spin box and its slider die out. -/
theorem spinBoxSetValue_total (env : Env) (fuel : Nat) (p : Linked) (v : Int) (s : State)
    (hf : 4 ≤ fuel) : ∃ s', spinBoxSetValue env fuel p v s = some s' := by
  obtain ⟨n, rfl⟩ : ∃ n, fuel = n + 4 := ⟨fuel - 4, by omega⟩
  simp only [spinBoxSetValue, sliderSetValue, spinBoxSlot_ui, spinBoxSlot_connected,
    spinValue_withSpinValue, sliderValue_withSpinValue, sliderValue_withSliderValue,
    spinValue_withSliderValue, sliderBound_settles]
  split_ifs <;> simp

/-- The call `setValue` on a slider of a pair returns once four nested calls are
allowed. -/
theorem sliderSetValue_total (env : Env) (fuel : Nat) (p : Linked) (v : Int) (s : State)
    (hf : 4 ≤ fuel) : ∃ s', sliderSetValue env fuel p v s = some s' := by
  obtain ⟨n, rfl⟩ : ∃ n, fuel = n + 4 := ⟨fuel - 4, by omega⟩
  simp only [spinBoxSetValue, sliderSetValue, spinBoxSlot_ui, spinBoxSlot_connected,
    spinValue_withSpinValue, sliderValue_withSpinValue, sliderValue_withSliderValue,
    spinValue_withSliderValue, spinBound_settles]
  split_ifs <;> simp

/-! ## Helper lemmas: what lines 236-257 of `slotUpdate` leave alone -/

theorem allVisualGain_setValue_kept (env : Env) (v : ℚ) (s : State) :
    (allVisualGain_setValue env v s).kept = s.kept := by
  unfold allVisualGain_setValue; simp only; split_ifs <;> rfl

theorem lowVisualGain_setValue_kept (env : Env) (v : ℚ) (s : State) :
    (lowVisualGain_setValue env v s).kept = s.kept := by
  unfold lowVisualGain_setValue; simp only; split_ifs <;> rfl

theorem midVisualGain_setValue_kept (env : Env) (v : ℚ) (s : State) :
    (midVisualGain_setValue env v s).kept = s.kept := by
  unfold midVisualGain_setValue; simp only; split_ifs <;> rfl

theorem highVisualGain_setValue_kept (env : Env) (v : ℚ) (s : State) :
    (highVisualGain_setValue env v s).kept = s.kept := by
  unfold highVisualGain_setValue; simp only; split_ifs <;> rfl

theorem normalizeOverviewCheckBox_setChecked_kept (b : Bool) (s : State) :
    (normalizeOverviewCheckBox_setChecked b s).kept = s.kept := by
  unfold normalizeOverviewCheckBox_setChecked; simp only; split_ifs <;> rfl

theorem defaultZoomComboBox_setCurrentIndex_kept (env : Env) (i : Int) (s : State) :
    (defaultZoomComboBox_setCurrentIndex env i s).kept = s.kept := by
  unfold defaultZoomComboBox_setCurrentIndex; simp only; split_ifs <;> rfl

theorem playMarkerPositionSlider_setValue_kept (env : Env) (v : Int) (s : State) :
    (playMarkerPositionSlider_setValue env v s).kept = s.kept := by
  unfold playMarkerPositionSlider_setValue; simp only; split_ifs <;> rfl

theorem untilMarkShowBeatsCheckBox_setChecked_kept (b : Bool) (s : State) :
    (untilMarkShowBeatsCheckBox_setChecked b s).kept = s.kept := by
  unfold untilMarkShowBeatsCheckBox_setChecked; simp only; split_ifs <;> rfl

theorem untilMarkShowTimeCheckBox_setChecked_kept (b : Bool) (s : State) :
    (untilMarkShowTimeCheckBox_setChecked b s).kept = s.kept := by
  unfold untilMarkShowTimeCheckBox_setChecked; simp only; split_ifs <;> rfl

theorem untilMarkAlignComboBox_setCurrentIndex_kept (env : Env) (i : Int) (s : State) :
    (untilMarkAlignComboBox_setCurrentIndex env i s).kept = s.kept := by
  unfold untilMarkAlignComboBox_setCurrentIndex; simp only; split_ifs <;> rfl

theorem untilMarkTextPointSizeSpinBox_setValue_kept (env : Env) (v : Int) (s : State) :
    (untilMarkTextPointSizeSpinBox_setValue env v s).kept = s.kept := by
  unfold untilMarkTextPointSizeSpinBox_setValue; simp only; split_ifs <;> rfl

theorem synchronizeZoom_kept (b : Bool) (s : State) :
    ({ s with ui.synchronizeZoomCheckBox := s.ui.synchronizeZoomCheckBox.setChecked b } :
      State).kept = s.kept := rfl

/-- Lines 236-257 of `slotUpdate` return once four nested `setValue` calls are
allowed, and leave the kept part of the state alone. -/
theorem slotUpdateValues_kept (env : Env) (fuel : Nat) (s : State) (hf : 4 ≤ fuel) :
    ∃ s', slotUpdateValues env fuel s = some s' ∧ s'.kept = s.kept := by
  obtain ⟨s1, h1⟩ := spinBoxSetValue_total env fuel Linked.frameRate s.factory.frameRate s hf
  have k1 := (linked_kept env fuel _ _ _ _).1 h1
  obtain ⟨s2, h2⟩ := sliderSetValue_total env fuel Linked.frameRate s1.factory.frameRate s1 hf
  have k2 := (linked_kept env fuel _ _ _ _).2 h2
  obtain ⟨s3, h3⟩ := spinBoxSetValue_total env fuel Linked.endOfTrackWarningTime
    s2.factory.endOfTrackWarningTime s2 hf
  have k3 := (linked_kept env fuel _ _ _ _).1 h3
  obtain ⟨s4, h4⟩ := sliderSetValue_total env fuel Linked.endOfTrackWarningTime
    s3.factory.endOfTrackWarningTime s3 hf
  have k4 := (linked_kept env fuel _ _ _ _).2 h4
  simp only [slotUpdateValues, h1, h2, h3, h4, Option.bind_eq_bind, Option.some_bind]
  generalize hs5 : playMarkerPositionSlider_setValue env _ _ = s5
  have k5 : s5.kept = s4.kept := by
    rw [← hs5]
    simp only [playMarkerPositionSlider_setValue_kept, defaultZoomComboBox_setCurrentIndex_kept,
      normalizeOverviewCheckBox_setChecked_kept, highVisualGain_setValue_kept,
      midVisualGain_setValue_kept, lowVisualGain_setValue_kept, allVisualGain_setValue_kept,
      synchronizeZoom_kept]
  obtain ⟨s6, h6⟩ := spinBoxSetValue_total env fuel Linked.beatGridAlpha
    s5.factory.beatGridAlpha s5 hf
  have k6 := (linked_kept env fuel _ _ _ _).1 h6
  obtain ⟨s7, h7⟩ := sliderSetValue_total env fuel Linked.beatGridAlpha
    s6.factory.beatGridAlpha s6 hf
  have k7 := (linked_kept env fuel _ _ _ _).2 h7
  simp only [h6, h7, Option.some_bind]
  refine ⟨_, rfl, ?_⟩
  simp only [untilMarkTextPointSizeSpinBox_setValue_kept,
    untilMarkAlignComboBox_setCurrentIndex_kept, untilMarkShowTimeCheckBox_setChecked_kept,
    untilMarkShowBeatsCheckBox_setChecked_kept, k7, k6, k5, k4, k3, k2, k1]

/-! ## Helper lemmas: combo boxes -/

theorem findData_bounds {α : Type} (p : α → Bool) (xs : List α) :
    findData p xs = -1 ∨ (0 ≤ findData p xs ∧ findData p xs < xs.length) := by
  induction xs with
  | nil => left; rfl
  | cons x xs ih =>
    simp only [findData]
    split_ifs with h1 h2
    · right; simp
    · left; rfl
    · right
      rcases ih with ih | ih
      · exact absurd ih h2
      · simp only [List.length_cons, Nat.cast_add, Nat.cast_one]; omega

theorem findData_get {α : Type} (p : α → Bool) (xs : List α) (h : findData p xs ≠ -1) :
    ∃ x, xs.get? (findData p xs).toNat = some x ∧ p x = true := by
  induction xs with
  | nil => exact absurd rfl h
  | cons x xs ih =>
    simp only [findData] at h ⊢
    split_ifs at h ⊢ with h1 h2
    · exact ⟨x, by simp, h1⟩
    · exact absurd rfl h
    · obtain ⟨y, hy, hp⟩ := ih h2
      refine ⟨y, ?_, hp⟩
      rcases findData_bounds p xs with hb | hb
      · exact absurd hb h2
      · have e : (findData p xs + 1).toNat = (findData p xs).toNat + 1 := by omega
        rw [e]
        simpa using hy

theorem comboIndex_valid (n : Nat) (i : Int) (h0 : 0 ≤ i) (h1 : i < n) : comboIndex n i = i := by
  simp [comboIndex, h0, h1]

/-- The item that `findData` finds for a render type holds that type. -/
theorem itemType_findData (env : Env) (t : WaveformWidgetType)
    (h : findData (fun x => x == t) env.waveformTypeItems ≠ -1) :
    env.itemType (findData (fun x => x == t) env.waveformTypeItems) = t := by
  obtain ⟨x, hx, hp⟩ := findData_get _ _ h
  rcases findData_bounds (fun x => x == t) env.waveformTypeItems with hb | hb
  · exact absurd hb h
  · simp only [Env.itemType, if_pos hb.1, hx, Option.getD_some]
    simpa using hp

/-! ## Helper lemmas: lines 207-234 and 259-270 of `slotUpdate` -/

/-- What `slotSetWaveformType` does for an index that is not negative. -/
theorem slotSetWaveformType_nonneg (env : Env) (index : Int) (s : State) (h : 0 ≤ index) :
    (slotSetWaveformType env index s).config = s.config ∧
    (slotSetWaveformType env index s).connected = s.connected ∧
    (slotSetWaveformType env index s).factory.openGlAvailable = s.factory.openGlAvailable ∧
    (slotSetWaveformType env index s).factory.openGlesAvailable = s.factory.openGlesAvailable ∧
    (slotSetWaveformType env index s).factory.type =
      env.setWidgetTypeFromHandle s.factory.type
        (env.findHandleIndexFromType (env.itemType index)) false ∧
    (slotSetWaveformType env index s).ui.useAccelerationCheckBox.checked =
      s.config.accelerationEnabled ∧
    (slotSetWaveformType env index s).ui.splitLeftRightCheckBox.checked =
      s.ui.splitLeftRightCheckBox.checked ∧
    (slotSetWaveformType env index s).ui.waveformOverviewComboBox =
      s.ui.waveformOverviewComboBox ∧
    (slotSetWaveformType env index s).ui.waveformTypeComboBox = s.ui.waveformTypeComboBox := by
  have h0 : ¬ index < 0 := by omega
  simp [slotSetWaveformType, h0, updateEnableUntilMark, updateStereoSplitVisibility_checked,
    QCheckBox.setChecked]

/-- Lines 207-234 of `slotUpdate` when OpenGL or OpenGL ES is available. -/
theorem slotUpdateRenderType_available (env : Env) (s : State)
    (hgl : (s.factory.openGlAvailable || s.factory.openGlesAvailable) = true) :
    (slotUpdateRenderType env s).config = s.config ∧
    (slotUpdateRenderType env s).connected = s.connected ∧
    (slotUpdateRenderType env s).ui.waveformOverviewComboBox = s.ui.waveformOverviewComboBox ∧
    (slotUpdateRenderType env s).ui.useAccelerationCheckBox.enabled =
      !(kWaveformWithOnlyAcceleration.contains (slotUpdateRenderType env s).factory.type ||
        kWaveformWithoutAcceleration.contains (slotUpdateRenderType env s).factory.type) ∧
    (slotUpdateRenderType env s).ui.useAccelerationCheckBox.checked =
      (if kWaveformWithOnlyAcceleration.contains (slotUpdateRenderType env s).factory.type
        then true
      else if kWaveformWithoutAcceleration.contains (slotUpdateRenderType env s).factory.type
        then false
      else s.config.accelerationEnabled) ∧
    (slotUpdateRenderType env s).ui.splitLeftRightCheckBox.checked =
      s.config.splitStereoSignal.getD false ∧
    (slotUpdateRenderType env s).ui.splitLeftRightCheckBox.visible =
      (s.config.accelerationEnabled &&
        kWaveformWithSplitSignalSupport.contains (slotUpdateRenderType env s).factory.type) ∧
    (env.setWidgetTypeFromHandle s.factory.type
        (env.findHandleIndexFromType s.factory.type) false = s.factory.type →
      (slotUpdateRenderType env s).factory.type = s.factory.type) := by
  simp only [slotUpdateRenderType, hgl, if_true, Bool.true_and, updateEnableUntilMark,
    setAccelerationCheckboxProperty_enabled, setAccelerationCheckboxProperty_checked,
    updateStereoSplitVisibility_visible, updateStereoSplitVisibility_checked,
    waveformTypeComboBox_setCurrentIndex]
  by_cases hc : findData (fun t => t == s.factory.type) env.waveformTypeItems ≠ -1 ∧
      s.ui.waveformTypeComboBox.currentIndex ≠
        findData (fun t => t == s.factory.type) env.waveformTypeItems
  · rcases findData_bounds (fun t => t == s.factory.type) env.waveformTypeItems with hb | hb
    · exact absurd hb hc.1
    · have hi := comboIndex_valid _ _ hb.1 hb.2
      have hne : ¬ (findData (fun t => t == s.factory.type) env.waveformTypeItems =
          s.ui.waveformTypeComboBox.currentIndex) := fun e => hc.2 e.symm
      have hit := itemType_findData env s.factory.type hc.1
      simp only [if_pos hc, hi, if_neg hne]
      by_cases hcon : s.connected = true
      · simp only [hcon, if_true]
        have key := fun S => slotSetWaveformType_nonneg env
          (findData (fun t => t == s.factory.type) env.waveformTypeItems) S hb.1
        simp only [key, hit]
        simp +contextual [QCheckBox.setChecked]
      · simp [hcon, QCheckBox.setChecked, QCheckBox.setEnabled]
  · simp [if_neg hc, QCheckBox.setChecked, QCheckBox.setEnabled]

/-- Lines 259-270 of `slotUpdate`. -/
theorem slotUpdateOverview_facts (s : State) :
    (slotUpdateOverview s).factory = s.factory ∧
    (slotUpdateOverview s).connected = s.connected ∧
    (slotUpdateOverview s).ui.useAccelerationCheckBox = s.ui.useAccelerationCheckBox ∧
    (slotUpdateOverview s).ui.splitLeftRightCheckBox = s.ui.splitLeftRightCheckBox ∧
    (slotUpdateOverview s).config.useHardwareAcceleration = s.config.useHardwareAcceleration ∧
    (slotUpdateOverview s).config.splitStereoSignal = s.config.splitStereoSignal ∧
    (slotUpdateOverview s).ui.waveformOverviewComboBox.currentIndex =
      (if s.config.waveformOverviewType.getD 2 = s.ui.waveformOverviewComboBox.currentIndex
        then s.config.waveformOverviewType.getD 2
        else comboIndex waveformOverviewCount (s.config.waveformOverviewType.getD 2)) ∧
    (slotUpdateOverview s).ui.enableWaveformCaching.checked = s.config.waveformCachingEnabled ∧
    (slotUpdateOverview s).ui.enableWaveformGenerationWithAnalysis.checked =
      s.config.waveformGenerationWithAnalysisEnabled ∧
    (slotUpdateOverview s).ui.waveformDiskUsageBytes =
      s.diskUsageWaveform + s.diskUsageWavesummary := by
  simp only [slotUpdateOverview, calculateCachedWaveformDiskUsage,
    waveformOverviewComboBox_setCurrentIndex, slotSetWaveformOverviewType, QCheckBox.setChecked]
  split_ifs <;> simp_all

/-! ## C4 -/

/-- C4: `slotUpdate` falls back to the defaults of its reads.  With OpenGL or
OpenGL ES available it returns, and in the state it returns

* an absent `use_hardware_acceleration` counts as acceleration enabled: the split
  box is visible exactly for a type with split support, and the acceleration box is
  checked unless the type is in `kWaveformWithoutAcceleration`;
* an absent `split_stereo_signal` leaves the split box unchecked;
* an absent `WaveformOverviewType` selects overview index 2;
* a stored backend `b` counts as enabled exactly when `b` is not `None`, a stored
  split flag is the checked state of the split box, and a stored overview index that
  names one of the three items is the selected index. -/
theorem slotUpdate_defaults (env : Env) (fuel : Nat) (s : State) (hf : 4 ≤ fuel)
    (hgl : (s.factory.openGlAvailable || s.factory.openGlesAvailable) = true) :
    ∃ s', slotUpdate env fuel s = some s' ∧
      (s.config.useHardwareAcceleration = none →
        s.config.accelerationEnabled = true ∧
        s'.ui.splitLeftRightCheckBox.visible =
          kWaveformWithSplitSignalSupport.contains s'.factory.type ∧
        s'.ui.useAccelerationCheckBox.checked =
          !(kWaveformWithoutAcceleration.contains s'.factory.type)) ∧
      (s.config.splitStereoSignal = none → s'.ui.splitLeftRightCheckBox.checked = false) ∧
      (s.config.waveformOverviewType = none →
        s'.ui.waveformOverviewComboBox.currentIndex = 2) ∧
      (∀ b, s.config.useHardwareAcceleration = some b →
        s.config.accelerationEnabled = (b != WaveformWidgetBackend.None) ∧
        s'.ui.splitLeftRightCheckBox.visible =
          ((b != WaveformWidgetBackend.None) &&
            kWaveformWithSplitSignalSupport.contains s'.factory.type) ∧
        s'.ui.useAccelerationCheckBox.checked =
          (if kWaveformWithOnlyAcceleration.contains s'.factory.type then true
          else if kWaveformWithoutAcceleration.contains s'.factory.type then false
          else (b != WaveformWidgetBackend.None))) ∧
      (∀ v, s.config.splitStereoSignal = some v → s'.ui.splitLeftRightCheckBox.checked = v) ∧
      (∀ o, s.config.waveformOverviewType = some o → 0 ≤ o → o < 3 →
        s'.ui.waveformOverviewComboBox.currentIndex = o) := by
  obtain ⟨s2, h2, k2⟩ := slotUpdateValues_kept env fuel (slotUpdateRenderType env s) hf
  obtain ⟨a1, -, a3, -, a5, a6, a7, -⟩ := slotUpdateRenderType_available env s hgl
  obtain ⟨c1, -, c3, c4, -, -, c7, -⟩ := slotUpdateOverview_facts s2
  have kt : s2.factory.type = (slotUpdateRenderType env s).factory.type :=
    congrArg Kept.type k2
  have ka : s2.ui.useAccelerationCheckBox =
      (slotUpdateRenderType env s).ui.useAccelerationCheckBox :=
    congrArg Kept.useAccelerationCheckBox k2
  have ks : s2.ui.splitLeftRightCheckBox =
      (slotUpdateRenderType env s).ui.splitLeftRightCheckBox :=
    congrArg Kept.splitLeftRightCheckBox k2
  have ko : s2.ui.waveformOverviewComboBox =
      (slotUpdateRenderType env s).ui.waveformOverviewComboBox :=
    congrArg Kept.waveformOverviewComboBox k2
  have kc : s2.config.waveformOverviewType =
      (slotUpdateRenderType env s).config.waveformOverviewType :=
    congrArg Kept.waveformOverviewType k2
  refine ⟨slotUpdateOverview s2, by simp [slotUpdate, h2], ?_⟩
  rw [c1, c3, c4, c7, kt, ka, ks, ko, kc, a1, a3, a5, a6, a7]
  refine ⟨?_, ?_, ?_, ?_, ?_, ?_⟩
  · intro h
    cases ht : (slotUpdateRenderType env s).factory.type <;>
      simp [Config.accelerationEnabled, h, kWaveformWithSplitSignalSupport,
        kWaveformWithOnlyAcceleration, kWaveformWithoutAcceleration]
  · intro h; simp [h]
  · intro h; simp [h, comboIndex, waveformOverviewCount]
  · intro b h
    simp [Config.accelerationEnabled, h]
  · intro v h; simp [h]
  · intro o h h0 h1
    simp [h, comboIndex, waveformOverviewCount, h0, h1]

/-- C4, applied: on the example page no key is present, and `slotUpdate` selects
overview index 2, leaves the split box unchecked and shows it for the type `RGB`. -/
theorem slotUpdate_defaults_witness :
    4 ≤ 8 ∧ (state0.factory.openGlAvailable || state0.factory.openGlesAvailable) = true ∧
    state0.config.useHardwareAcceleration = none ∧
    state0.config.splitStereoSignal = none ∧
    state0.config.waveformOverviewType = none ∧
    ∃ s', slotUpdate env0 8 state0 = some s' ∧
      s'.ui.splitLeftRightCheckBox.checked = false ∧
      s'.ui.waveformOverviewComboBox.currentIndex = 2 ∧
      s'.ui.useAccelerationCheckBox.checked =
        !(kWaveformWithoutAcceleration.contains s'.factory.type) :=
  ⟨by decide, by decide, rfl, rfl, rfl,
    match slotUpdate_defaults env0 8 state0 (by decide) (by decide) with
    | ⟨s', h, a, b, c, _⟩ => ⟨s', h, b rfl, c rfl, (a rfl).2.2⟩⟩

/-! ## C6 -/

/-- C6: after `slotSetWaveformAcceleration checked` the stored backend is `None`
if and only if `checked` is false.  A following `slotUpdate`, with OpenGL or
OpenGL ES available, returns; when the render type of the factory is then in
neither `kWaveformWithOnlyAcceleration` nor `kWaveformWithoutAcceleration`, the
acceleration box is enabled and its checked state is `checked`.  That render type
is the one `slotSetWaveformAcceleration` left whenever selecting the current type
again keeps it. -/
theorem slotSetWaveformAcceleration_roundtrip (env : Env) (checked : Bool) (s : State)
    (fuel : Nat) (hf : 4 ≤ fuel)
    (hgl : (s.factory.openGlAvailable || s.factory.openGlesAvailable) = true) :
    ((slotSetWaveformAcceleration env checked s).config.useHardwareAcceleration =
        some WaveformWidgetBackend.None ↔ checked = false) ∧
    ∃ s', slotUpdate env fuel (slotSetWaveformAcceleration env checked s) = some s' ∧
      (kWaveformWithOnlyAcceleration.contains s'.factory.type = false →
        kWaveformWithoutAcceleration.contains s'.factory.type = false →
        s'.ui.useAccelerationCheckBox.enabled = true ∧
        s'.ui.useAccelerationCheckBox.checked = checked) ∧
      (env.setWidgetTypeFromHandle (slotSetWaveformAcceleration env checked s).factory.type
          (env.findHandleIndexFromType
            (slotSetWaveformAcceleration env checked s).factory.type) false =
          (slotSetWaveformAcceleration env checked s).factory.type →
        s'.factory.type = (slotSetWaveformAcceleration env checked s).factory.type) := by
  have hcfg : (slotSetWaveformAcceleration env checked s).config.accelerationEnabled =
      checked := by
    cases checked <;> cases hq : env.useQOpenGL <;>
      simp [slotSetWaveformAcceleration, updateEnableUntilMark, Config.accelerationEnabled, hq]
  have hgl1 : ((slotSetWaveformAcceleration env checked s).factory.openGlAvailable ||
      (slotSetWaveformAcceleration env checked s).factory.openGlesAvailable) = true := by
    cases checked <;> simpa [slotSetWaveformAcceleration, updateEnableUntilMark] using hgl
  constructor
  · cases checked <;> cases hq : env.useQOpenGL <;>
      simp [slotSetWaveformAcceleration, updateEnableUntilMark, hq]
  · generalize slotSetWaveformAcceleration env checked s = s1 at hcfg hgl1 ⊢
    obtain ⟨s2, h2, k2⟩ := slotUpdateValues_kept env fuel (slotUpdateRenderType env s1) hf
    obtain ⟨-, -, -, a4, a5, -, -, a8⟩ := slotUpdateRenderType_available env s1 hgl1
    obtain ⟨c1, -, c3, -⟩ := slotUpdateOverview_facts s2
    have kt : s2.factory.type = (slotUpdateRenderType env s1).factory.type :=
      congrArg Kept.type k2
    have ka : s2.ui.useAccelerationCheckBox =
        (slotUpdateRenderType env s1).ui.useAccelerationCheckBox :=
      congrArg Kept.useAccelerationCheckBox k2
    refine ⟨slotUpdateOverview s2, by simp [slotUpdate, h2], ?_, ?_⟩
    · rw [c1, c3, kt, ka, a4, a5, hcfg]
      intro h1 h2
      rw [h1, h2]
      simp
    · intro h
      rw [c1, kt, a8 h]

/-- C6, applied: on the example page with item 1 (`RGB`) selected the box is
ticked, the stored backend is not `None`, and the following `slotUpdate` leaves the
factory at `RGB` and the acceleration box enabled and checked. -/
theorem slotSetWaveformAcceleration_roundtrip_witness :
    4 ≤ 8 ∧
    (stateRgbSelected.factory.openGlAvailable ||
      stateRgbSelected.factory.openGlesAvailable) = true ∧
    (slotSetWaveformAcceleration env0 true stateRgbSelected).config.useHardwareAcceleration ≠
      some WaveformWidgetBackend.None ∧
    ∃ s', slotUpdate env0 8 (slotSetWaveformAcceleration env0 true stateRgbSelected) = some s' ∧
      s'.factory.type = WaveformWidgetType.RGB ∧
      kWaveformWithOnlyAcceleration.contains s'.factory.type = false ∧
      kWaveformWithoutAcceleration.contains s'.factory.type = false ∧
      s'.ui.useAccelerationCheckBox.enabled = true ∧
      s'.ui.useAccelerationCheckBox.checked = true :=
  ⟨by decide, by decide, by decide,
    match (slotSetWaveformAcceleration_roundtrip env0 true stateRgbSelected 8 (by decide)
      (by decide)).2 with
    | ⟨s', h, a, b⟩ =>
      have t : s'.factory.type = WaveformWidgetType.RGB := (b (by decide)).trans (by decide)
      have h1 : kWaveformWithOnlyAcceleration.contains s'.factory.type = false := by
        rw [t]; decide
      have h2 : kWaveformWithoutAcceleration.contains s'.factory.type = false := by
        rw [t]; decide
      ⟨s', h, t, h1, h2, (a h1 h2).1, (a h1 h2).2⟩⟩

/-! ## Helper lemmas: the widgets after lines 236-257 when the values are in range -/

theorem spinBound_holds (r : IntRange) (v : Int) (h : r.holds v) : r.spinBound v = v := by
  obtain ⟨h1, h2⟩ := h
  simp only [IntRange.spinBound]
  split_ifs <;> omega

theorem sliderBound_holds (r : IntRange) (v : Int) (h : r.holds v) : r.sliderBound v = v := by
  obtain ⟨h1, h2⟩ := h
  simp only [IntRange.sliderBound]
  omega

theorem withSpinValue_self (w : Widgets) (p : Linked) : w.withSpinValue (w.spinValue p) p = w := by
  cases p <;> rfl

theorem withSliderValue_self (w : Widgets) (p : Linked) :
    w.withSliderValue (w.sliderValue p) p = w := by
  cases p <;> rfl

theorem withSpinValue_withSliderValue (w : Widgets) (a b : Int) (p : Linked) :
    (w.withSliderValue a p).withSpinValue b p = (w.withSpinValue b p).withSliderValue a p := by
  cases p <;> rfl

theorem withSpinValue_twice (w : Widgets) (a b : Int) (p : Linked) :
    (w.withSpinValue a p).withSpinValue b p = w.withSpinValue b p := by
  cases p <;> rfl

/-- A spin box and its slider after `setValue v` on the spin box and then on the
slider, for a value inside both ranges that the factory already holds. -/
theorem linked_sync (env : Env) (fuel : Nat) (p : Linked) (v : Int) (s : State)
    (hf : 3 ≤ fuel) (hsp : (env.spinRange p).holds v) (hsl : (env.sliderRange p).holds v)
    (hslot : (spinBoxSlot p v s).factory = s.factory) :
    ∃ s1, spinBoxSetValue env fuel p v s = some s1 ∧ s1.factory = s.factory ∧
      ∃ s2, sliderSetValue env fuel p v s1 = some s2 ∧ s2.factory = s.factory ∧
        s2.connected = s.connected ∧
        s2.ui = (s.ui.withSpinValue v p).withSliderValue v p := by
  obtain ⟨n, rfl⟩ : ∃ n, fuel = n + 3 := ⟨fuel - 3, by omega⟩
  have e1 := spinBound_holds _ _ hsp
  have e2 := sliderBound_holds _ _ hsl
  have hslot2 : ∀ w : Widgets, (spinBoxSlot p v { s with ui := w }).factory = s.factory := by
    intro w
    cases p <;> exact hslot
  by_cases hcon : s.connected = true
  · by_cases h1 : v = s.ui.spinValue p
    · have u1 : s.ui.withSpinValue v p = s.ui := by rw [h1]; exact withSpinValue_self _ _
      refine ⟨s, by simp [spinBoxSetValue, e1, ← h1], rfl, ?_⟩
      by_cases h2 : v = s.ui.sliderValue p
      · have u2 : s.ui.withSliderValue v p = s.ui := by rw [h2]; exact withSliderValue_self _ _
        exact ⟨s, by simp [sliderSetValue, e2, ← h2], rfl, rfl, by rw [u1, u2]⟩
      · refine ⟨{ s with ui := s.ui.withSliderValue v p }, ?_, rfl, rfl, by rw [u1]⟩
        simp [sliderSetValue, spinBoxSetValue, e1, e2, h2, hcon, spinValue_withSliderValue, ← h1]
    · by_cases h2 : v = s.ui.sliderValue p
      · have u2 : (s.ui.withSpinValue v p).withSliderValue v p = s.ui.withSpinValue v p := by
          have := withSliderValue_self (s.ui.withSpinValue v p) p
          rwa [sliderValue_withSpinValue, ← h2] at this
        refine ⟨spinBoxSlot p v { s with ui := s.ui.withSpinValue v p }, ?_, hslot2 _, ?_⟩
        · simp [spinBoxSetValue, sliderSetValue, e1, e2, h1, hcon, spinBoxSlot_ui,
            sliderValue_withSpinValue, ← h2]
        · refine ⟨spinBoxSlot p v { s with ui := s.ui.withSpinValue v p }, ?_, hslot2 _, ?_, ?_⟩
          · simp [sliderSetValue, e2, spinBoxSlot_ui, sliderValue_withSpinValue, ← h2]
          · simp [spinBoxSlot_connected]
          · rw [spinBoxSlot_ui, u2]
      · refine ⟨{ spinBoxSlot p v { s with ui := s.ui.withSpinValue v p } with
            ui := (s.ui.withSpinValue v p).withSliderValue v p }, ?_, hslot2 _, ?_⟩
        · simp [spinBoxSetValue, sliderSetValue, e1, e2, h1, h2, hcon, spinBoxSlot_ui,
            spinBoxSlot_connected, sliderValue_withSpinValue, spinValue_withSliderValue,
            spinValue_withSpinValue]
        · refine ⟨{ spinBoxSlot p v { s with ui := s.ui.withSpinValue v p } with
              ui := (s.ui.withSpinValue v p).withSliderValue v p }, ?_, hslot2 _, ?_, rfl⟩
          · simp [sliderSetValue, e2, sliderValue_withSliderValue]
          · simp [spinBoxSlot_connected]
  · have hcon2 : s.connected = false := by simpa using hcon
    by_cases h1 : v = s.ui.spinValue p
    · have u1 : s.ui.withSpinValue v p = s.ui := by rw [h1]; exact withSpinValue_self _ _
      refine ⟨s, by simp [spinBoxSetValue, e1, ← h1], rfl, ?_⟩
      by_cases h2 : v = s.ui.sliderValue p
      · have u2 : s.ui.withSliderValue v p = s.ui := by rw [h2]; exact withSliderValue_self _ _
        exact ⟨s, by simp [sliderSetValue, e2, ← h2], rfl, rfl, by rw [u1, u2]⟩
      · refine ⟨{ s with ui := s.ui.withSliderValue v p }, ?_, rfl, rfl, by rw [u1]⟩
        simp [sliderSetValue, e2, h2, hcon2]
    · refine ⟨{ s with ui := s.ui.withSpinValue v p }, ?_, rfl, ?_⟩
      · simp [spinBoxSetValue, e1, h1, hcon2]
      · by_cases h2 : v = s.ui.sliderValue p
        · have u2 : (s.ui.withSpinValue v p).withSliderValue v p = s.ui.withSpinValue v p := by
            have := withSliderValue_self (s.ui.withSpinValue v p) p
            rwa [sliderValue_withSpinValue, ← h2] at this
          exact ⟨{ s with ui := s.ui.withSpinValue v p },
            by simp [sliderSetValue, e2, sliderValue_withSpinValue, ← h2], rfl, rfl,
            by rw [u2]⟩
        · exact ⟨{ s with ui := (s.ui.withSpinValue v p).withSliderValue v p },
            by simp [sliderSetValue, e2, sliderValue_withSpinValue, h2, hcon2], rfl, rfl, rfl⟩

/-! ## Helper lemmas: what each widget call does to the widgets and to the factory -/

theorem allVisualGain_setValue_ui (env : Env) (v : ℚ) (s : State) :
    (allVisualGain_setValue env v s).connected = s.connected ∧
    (allVisualGain_setValue env v s).ui =
      { s.ui with allVisualGain.value := env.allVisualGain.fit v } := by
  simp only [allVisualGain_setValue]
  by_cases h : env.allVisualGain.fit v = s.ui.allVisualGain.value
  · rw [if_pos h]; exact ⟨rfl, by rw [h]⟩
  · rw [if_neg h]; split_ifs <;> exact ⟨rfl, rfl⟩

theorem lowVisualGain_setValue_ui (env : Env) (v : ℚ) (s : State) :
    (lowVisualGain_setValue env v s).connected = s.connected ∧
    (lowVisualGain_setValue env v s).ui =
      { s.ui with lowVisualGain.value := env.lowVisualGain.fit v } := by
  simp only [lowVisualGain_setValue]
  by_cases h : env.lowVisualGain.fit v = s.ui.lowVisualGain.value
  · rw [if_pos h]; exact ⟨rfl, by rw [h]⟩
  · rw [if_neg h]; split_ifs <;> exact ⟨rfl, rfl⟩

theorem midVisualGain_setValue_ui (env : Env) (v : ℚ) (s : State) :
    (midVisualGain_setValue env v s).connected = s.connected ∧
    (midVisualGain_setValue env v s).ui =
      { s.ui with midVisualGain.value := env.midVisualGain.fit v } := by
  simp only [midVisualGain_setValue]
  by_cases h : env.midVisualGain.fit v = s.ui.midVisualGain.value
  · rw [if_pos h]; exact ⟨rfl, by rw [h]⟩
  · rw [if_neg h]; split_ifs <;> exact ⟨rfl, rfl⟩

theorem highVisualGain_setValue_ui (env : Env) (v : ℚ) (s : State) :
    (highVisualGain_setValue env v s).connected = s.connected ∧
    (highVisualGain_setValue env v s).ui =
      { s.ui with highVisualGain.value := env.highVisualGain.fit v } := by
  simp only [highVisualGain_setValue]
  by_cases h : env.highVisualGain.fit v = s.ui.highVisualGain.value
  · rw [if_pos h]; exact ⟨rfl, by rw [h]⟩
  · rw [if_neg h]; split_ifs <;> exact ⟨rfl, rfl⟩

theorem normalizeOverviewCheckBox_setChecked_ui (b : Bool) (s : State) :
    (normalizeOverviewCheckBox_setChecked b s).connected = s.connected ∧
    (normalizeOverviewCheckBox_setChecked b s).ui =
      { s.ui with normalizeOverviewCheckBox := s.ui.normalizeOverviewCheckBox.setChecked b } := by
  unfold normalizeOverviewCheckBox_setChecked
  simp only
  split_ifs <;> exact ⟨rfl, rfl⟩

theorem untilMarkShowBeatsCheckBox_setChecked_ui (b : Bool) (s : State) :
    (untilMarkShowBeatsCheckBox_setChecked b s).connected = s.connected ∧
    (untilMarkShowBeatsCheckBox_setChecked b s).ui =
      { s.ui with untilMarkShowBeatsCheckBox := s.ui.untilMarkShowBeatsCheckBox.setChecked b } := by
  unfold untilMarkShowBeatsCheckBox_setChecked
  simp only
  split_ifs <;> exact ⟨rfl, rfl⟩

theorem untilMarkShowTimeCheckBox_setChecked_ui (b : Bool) (s : State) :
    (untilMarkShowTimeCheckBox_setChecked b s).connected = s.connected ∧
    (untilMarkShowTimeCheckBox_setChecked b s).ui =
      { s.ui with untilMarkShowTimeCheckBox := s.ui.untilMarkShowTimeCheckBox.setChecked b } := by
  unfold untilMarkShowTimeCheckBox_setChecked
  simp only
  split_ifs <;> exact ⟨rfl, rfl⟩

theorem defaultZoomComboBox_setCurrentIndex_ui (env : Env) (i : Int) (s : State) :
    (defaultZoomComboBox_setCurrentIndex env i s).connected = s.connected ∧
    (defaultZoomComboBox_setCurrentIndex env i s).ui =
      { s.ui with defaultZoomComboBox.currentIndex := comboIndex env.defaultZoomCount i } := by
  simp only [defaultZoomComboBox_setCurrentIndex]
  by_cases h : comboIndex env.defaultZoomCount i = s.ui.defaultZoomComboBox.currentIndex
  · rw [if_pos h]; exact ⟨rfl, by rw [h]⟩
  · rw [if_neg h]; split_ifs <;> exact ⟨rfl, rfl⟩

theorem waveformOverviewComboBox_setCurrentIndex_ui (i : Int) (s : State) :
    (waveformOverviewComboBox_setCurrentIndex i s).connected = s.connected ∧
    (waveformOverviewComboBox_setCurrentIndex i s).ui =
      { s.ui with waveformOverviewComboBox.currentIndex := comboIndex waveformOverviewCount i } := by
  simp only [waveformOverviewComboBox_setCurrentIndex]
  by_cases h : comboIndex waveformOverviewCount i = s.ui.waveformOverviewComboBox.currentIndex
  · rw [if_pos h]; exact ⟨rfl, by rw [h]⟩
  · rw [if_neg h]; split_ifs <;> exact ⟨rfl, rfl⟩

theorem untilMarkAlignComboBox_setCurrentIndex_ui (env : Env) (i : Int) (s : State) :
    (untilMarkAlignComboBox_setCurrentIndex env i s).connected = s.connected ∧
    (untilMarkAlignComboBox_setCurrentIndex env i s).ui =
      { s.ui with untilMarkAlignComboBox.currentIndex := comboIndex untilMarkAlignCount i } := by
  simp only [untilMarkAlignComboBox_setCurrentIndex]
  by_cases h : comboIndex untilMarkAlignCount i = s.ui.untilMarkAlignComboBox.currentIndex
  · rw [if_pos h]; exact ⟨rfl, by rw [h]⟩
  · rw [if_neg h]; split_ifs <;> exact ⟨rfl, rfl⟩

theorem playMarkerPositionSlider_setValue_ui (env : Env) (v : Int) (s : State) :
    (playMarkerPositionSlider_setValue env v s).connected = s.connected ∧
    (playMarkerPositionSlider_setValue env v s).ui =
      { s.ui with playMarkerPositionSlider.value :=
        env.playMarkerPositionSlider.sliderBound v } := by
  simp only [playMarkerPositionSlider_setValue]
  by_cases h : env.playMarkerPositionSlider.sliderBound v = s.ui.playMarkerPositionSlider.value
  · rw [if_pos h]; exact ⟨rfl, by rw [h]⟩
  · rw [if_neg h]; split_ifs <;> exact ⟨rfl, rfl⟩

theorem untilMarkTextPointSizeSpinBox_setValue_ui (env : Env) (v : Int) (s : State) :
    (untilMarkTextPointSizeSpinBox_setValue env v s).connected = s.connected ∧
    (untilMarkTextPointSizeSpinBox_setValue env v s).ui =
      { s.ui with untilMarkTextPointSizeSpinBox.value :=
        env.untilMarkTextPointSizeSpinBox.spinBound v } := by
  simp only [untilMarkTextPointSizeSpinBox_setValue]
  by_cases h : env.untilMarkTextPointSizeSpinBox.spinBound v =
      s.ui.untilMarkTextPointSizeSpinBox.value
  · rw [if_pos h]; exact ⟨rfl, by rw [h]⟩
  · rw [if_neg h]; split_ifs <;> exact ⟨rfl, rfl⟩

theorem allVisualGain_setValue_factory (env : Env) (s : State)
    (h : env.allVisualGain.fit (s.factory.getVisualGain BandIndex.All) =
      s.factory.getVisualGain BandIndex.All) :
    (allVisualGain_setValue env (s.factory.getVisualGain BandIndex.All) s).factory =
      s.factory := by
  simp only [allVisualGain_setValue, h]
  split_ifs <;> rfl

theorem lowVisualGain_setValue_factory (env : Env) (s : State)
    (h : env.lowVisualGain.fit (s.factory.getVisualGain BandIndex.Low) =
      s.factory.getVisualGain BandIndex.Low) :
    (lowVisualGain_setValue env (s.factory.getVisualGain BandIndex.Low) s).factory =
      s.factory := by
  simp only [lowVisualGain_setValue, h]
  split_ifs <;> rfl

theorem midVisualGain_setValue_factory (env : Env) (s : State)
    (h : env.midVisualGain.fit (s.factory.getVisualGain BandIndex.Mid) =
      s.factory.getVisualGain BandIndex.Mid) :
    (midVisualGain_setValue env (s.factory.getVisualGain BandIndex.Mid) s).factory =
      s.factory := by
  simp only [midVisualGain_setValue, h]
  split_ifs <;> rfl

theorem highVisualGain_setValue_factory (env : Env) (s : State)
    (h : env.highVisualGain.fit (s.factory.getVisualGain BandIndex.High) =
      s.factory.getVisualGain BandIndex.High) :
    (highVisualGain_setValue env (s.factory.getVisualGain BandIndex.High) s).factory =
      s.factory := by
  simp only [highVisualGain_setValue, h]
  split_ifs <;> rfl

theorem normalizeOverviewCheckBox_setChecked_factory (s : State) :
    (normalizeOverviewCheckBox_setChecked s.factory.overviewNormalized s).factory =
      s.factory := by
  simp only [normalizeOverviewCheckBox_setChecked]
  split_ifs <;> rfl

theorem untilMarkShowBeatsCheckBox_setChecked_factory (s : State) :
    (untilMarkShowBeatsCheckBox_setChecked s.factory.untilMarkShowBeats s).factory =
      s.factory := by
  simp only [untilMarkShowBeatsCheckBox_setChecked]
  split_ifs <;> rfl

theorem untilMarkShowTimeCheckBox_setChecked_factory (s : State) :
    (untilMarkShowTimeCheckBox_setChecked s.factory.untilMarkShowTime s).factory =
      s.factory := by
  simp only [untilMarkShowTimeCheckBox_setChecked]
  split_ifs <;> rfl

theorem untilMarkTextPointSizeSpinBox_setValue_factory (env : Env) (s : State)
    (h : env.untilMarkTextPointSizeSpinBox.holds s.factory.untilMarkTextPointSize) :
    (untilMarkTextPointSizeSpinBox_setValue env s.factory.untilMarkTextPointSize s).factory =
      s.factory := by
  simp only [untilMarkTextPointSizeSpinBox_setValue, spinBound_holds _ _ h]
  split_ifs <;> rfl

theorem truncToInt_intCast (n : Int) : truncToInt (n : ℚ) = n := by
  simp [truncToInt]

theorem defaultZoomComboBox_setCurrentIndex_shown (env : Env) (s : State)
    (h0 : 0 ≤ truncToInt s.factory.defaultZoom - 1)
    (h1 : truncToInt s.factory.defaultZoom - 1 < env.defaultZoomCount) :
    (defaultZoomComboBox_setCurrentIndex env (truncToInt s.factory.defaultZoom - 1)
      s).factory.shown = s.factory.shown := by
  simp only [defaultZoomComboBox_setCurrentIndex, comboIndex_valid _ _ h0 h1]
  split_ifs
  · rfl
  · simp only [slotSetDefaultZoom, WaveformWidgetFactory.shown, truncToInt_intCast,
      sub_add_cancel]
    rfl
  · rfl

theorem playMarkerPositionSlider_setValue_shown (env : Env) (v : Int) (s : State) :
    (playMarkerPositionSlider_setValue env v s).factory.shown = s.factory.shown := by
  simp only [playMarkerPositionSlider_setValue]
  split_ifs <;> rfl

theorem untilMarkAlignComboBox_setCurrentIndex_shown (env : Env) (i : Int) (s : State) :
    (untilMarkAlignComboBox_setCurrentIndex env i s).factory.shown = s.factory.shown := by
  simp only [untilMarkAlignComboBox_setCurrentIndex]
  split_ifs <;> rfl

theorem spinBoxSlot_factory (p : Linked) (s : State) :
    (spinBoxSlot p (match p with
      | Linked.frameRate => s.factory.frameRate
      | Linked.endOfTrackWarningTime => s.factory.endOfTrackWarningTime
      | Linked.beatGridAlpha => s.factory.beatGridAlpha) s).factory = s.factory := by
  cases p <;> rfl

/-- Lines 236-257 of `slotUpdate` when the values of the factory lie inside the
ranges of the widgets: the widgets show the values, and the values stay. -/
theorem slotUpdateValues_inRange (env : Env) (fuel : Nat) (s : State) (hf : 4 ≤ fuel)
    (H : InRange env s.factory) :
    ∃ s', slotUpdateValues env fuel s = some s' ∧
      s'.factory.shown = s.factory.shown ∧
      s'.ui.frameRateSpinBox.value = s.factory.frameRate ∧
      s'.ui.frameRateSlider.value = s.factory.frameRate ∧
      s'.ui.endOfTrackWarningTimeSpinBox.value = s.factory.endOfTrackWarningTime ∧
      s'.ui.endOfTrackWarningTimeSlider.value = s.factory.endOfTrackWarningTime ∧
      s'.ui.beatGridAlphaSpinBox.value = s.factory.beatGridAlpha ∧
      s'.ui.beatGridAlphaSlider.value = s.factory.beatGridAlpha ∧
      s'.ui.synchronizeZoomCheckBox.checked = s.factory.zoomSync ∧
      s'.ui.normalizeOverviewCheckBox.checked = s.factory.overviewNormalized ∧
      s'.ui.allVisualGain.value = s.factory.getVisualGain BandIndex.All ∧
      s'.ui.lowVisualGain.value = s.factory.getVisualGain BandIndex.Low ∧
      s'.ui.midVisualGain.value = s.factory.getVisualGain BandIndex.Mid ∧
      s'.ui.highVisualGain.value = s.factory.getVisualGain BandIndex.High ∧
      s'.ui.untilMarkShowBeatsCheckBox.checked = s.factory.untilMarkShowBeats ∧
      s'.ui.untilMarkShowTimeCheckBox.checked = s.factory.untilMarkShowTime ∧
      s'.ui.untilMarkTextPointSizeSpinBox.value = s.factory.untilMarkTextPointSize ∧
      s'.ui.defaultZoomComboBox.currentIndex = truncToInt s.factory.defaultZoom - 1 := by
  obtain ⟨H1, H2, H3, H4, H5, H6, H7, H8, H9, H10, H11, H12, H13⟩ := H
  have hf3 : 3 ≤ fuel := by omega
  -- lines 236-239
  obtain ⟨s1, h1, f1, s2, h2, f2, -, u2⟩ :=
    linked_sync env fuel Linked.frameRate s.factory.frameRate s hf3 H1 H2 rfl
  obtain ⟨s3, h3, f3, s4, h4, f4, -, u4⟩ :=
    linked_sync env fuel Linked.endOfTrackWarningTime s2.factory.endOfTrackWarningTime s2 hf3
      (by rw [f2]; exact H3) (by rw [f2]; exact H4) rfl
  -- lines 240-248
  obtain ⟨t5, e5⟩ : ∃ t : State, t = { s4 with ui.synchronizeZoomCheckBox :=
    (s4.ui.synchronizeZoomCheckBox.setChecked s4.factory.zoomSync) } := ⟨_, rfl⟩
  have f5 : t5.factory = s.factory := by rw [e5]; exact f4.trans f2
  have u5 : t5.ui = { s4.ui with synchronizeZoomCheckBox :=
    (s4.ui.synchronizeZoomCheckBox.setChecked s4.factory.zoomSync) } := by rw [e5]
  obtain ⟨t6, e6⟩ : ∃ t : State,
    t = allVisualGain_setValue env (t5.factory.getVisualGain BandIndex.All) t5 := ⟨_, rfl⟩
  have f6 : t6.factory = s.factory := by
    rw [e6, allVisualGain_setValue_factory env t5 (by rw [f5]; exact H8), f5]
  have u6 := (allVisualGain_setValue_ui env (t5.factory.getVisualGain BandIndex.All) t5).2
  rw [← e6] at u6
  obtain ⟨t7, e7⟩ : ∃ t : State,
    t = lowVisualGain_setValue env (t6.factory.getVisualGain BandIndex.Low) t6 := ⟨_, rfl⟩
  have f7 : t7.factory = s.factory := by
    rw [e7, lowVisualGain_setValue_factory env t6 (by rw [f6]; exact H9), f6]
  have u7 := (lowVisualGain_setValue_ui env (t6.factory.getVisualGain BandIndex.Low) t6).2
  rw [← e7] at u7
  obtain ⟨t8, e8⟩ : ∃ t : State,
    t = midVisualGain_setValue env (t7.factory.getVisualGain BandIndex.Mid) t7 := ⟨_, rfl⟩
  have f8 : t8.factory = s.factory := by
    rw [e8, midVisualGain_setValue_factory env t7 (by rw [f7]; exact H10), f7]
  have u8 := (midVisualGain_setValue_ui env (t7.factory.getVisualGain BandIndex.Mid) t7).2
  rw [← e8] at u8
  obtain ⟨t9, e9⟩ : ∃ t : State,
    t = highVisualGain_setValue env (t8.factory.getVisualGain BandIndex.High) t8 := ⟨_, rfl⟩
  have f9 : t9.factory = s.factory := by
    rw [e9, highVisualGain_setValue_factory env t8 (by rw [f8]; exact H11), f8]
  have u9 := (highVisualGain_setValue_ui env (t8.factory.getVisualGain BandIndex.High) t8).2
  rw [← e9] at u9
  obtain ⟨t10, e10⟩ : ∃ t : State,
    t = normalizeOverviewCheckBox_setChecked t9.factory.overviewNormalized t9 := ⟨_, rfl⟩
  have f10 : t10.factory = s.factory := by
    rw [e10, normalizeOverviewCheckBox_setChecked_factory, f9]
  have u10 := (normalizeOverviewCheckBox_setChecked_ui t9.factory.overviewNormalized t9).2
  rw [← e10] at u10
  obtain ⟨t11, e11⟩ : ∃ t : State,
    t = defaultZoomComboBox_setCurrentIndex env (truncToInt t10.factory.defaultZoom - 1) t10 :=
    ⟨_, rfl⟩
  have g11 : t11.factory.shown = s.factory.shown := by
    rw [e11, defaultZoomComboBox_setCurrentIndex_shown env t10 (by rw [f10]; exact H12)
      (by rw [f10]; exact H13), f10]
  have u11 := (defaultZoomComboBox_setCurrentIndex_ui env
    (truncToInt t10.factory.defaultZoom - 1) t10).2
  rw [← e11] at u11
  obtain ⟨t12, e12⟩ : ∃ t : State,
    t = playMarkerPositionSlider_setValue env
      (truncToInt (t11.factory.playMarkerPosition * 100)) t11 := ⟨_, rfl⟩
  have g12 : t12.factory.shown = s.factory.shown := by
    rw [e12, playMarkerPositionSlider_setValue_shown, g11]
  have u12 := (playMarkerPositionSlider_setValue_ui env
    (truncToInt (t11.factory.playMarkerPosition * 100)) t11).2
  rw [← e12] at u12
  -- lines 249-250
  have b12 : t12.factory.beatGridAlpha = s.factory.beatGridAlpha :=
    congrArg Shown.beatGridAlpha g12
  obtain ⟨s13, h13, f13, s14, h14, f14, -, u14⟩ :=
    linked_sync env fuel Linked.beatGridAlpha t12.factory.beatGridAlpha t12 hf3
      (by rw [b12]; exact H5) (by rw [b12]; exact H6) rfl
  have g14 : s14.factory.shown = s.factory.shown := by rw [f14, g12]
  -- lines 252-257
  obtain ⟨t15, e15⟩ : ∃ t : State,
    t = untilMarkShowBeatsCheckBox_setChecked s14.factory.untilMarkShowBeats s14 := ⟨_, rfl⟩
  have f15 : t15.factory = s14.factory := by
    rw [e15, untilMarkShowBeatsCheckBox_setChecked_factory]
  have u15 := (untilMarkShowBeatsCheckBox_setChecked_ui s14.factory.untilMarkShowBeats s14).2
  rw [← e15] at u15
  obtain ⟨t16, e16⟩ : ∃ t : State,
    t = untilMarkShowTimeCheckBox_setChecked t15.factory.untilMarkShowTime t15 := ⟨_, rfl⟩
  have f16 : t16.factory = s14.factory := by
    rw [e16, untilMarkShowTimeCheckBox_setChecked_factory, f15]
  have u16 := (untilMarkShowTimeCheckBox_setChecked_ui t15.factory.untilMarkShowTime t15).2
  rw [← e16] at u16
  obtain ⟨t17, e17⟩ : ∃ t : State,
    t = untilMarkAlignComboBox_setCurrentIndex env
      (env.toUntilMarkAlignIndex t16.factory.untilMarkAlign) t16 := ⟨_, rfl⟩
  have g17 : t17.factory.shown = s.factory.shown := by
    rw [e17, untilMarkAlignComboBox_setCurrentIndex_shown, f16, g14]
  have u17 := (untilMarkAlignComboBox_setCurrentIndex_ui env
    (env.toUntilMarkAlignIndex t16.factory.untilMarkAlign) t16).2
  rw [← e17] at u17
  have p17 : t17.factory.untilMarkTextPointSize = s.factory.untilMarkTextPointSize :=
    congrArg Shown.untilMarkTextPointSize g17
  obtain ⟨t18, e18⟩ : ∃ t : State,
    t = untilMarkTextPointSizeSpinBox_setValue env t17.factory.untilMarkTextPointSize t17 :=
    ⟨_, rfl⟩
  have g18 : t18.factory.shown = s.factory.shown := by
    rw [e18, untilMarkTextPointSizeSpinBox_setValue_factory env t17 (by rw [p17]; exact H7),
      g17]
  have u18 := (untilMarkTextPointSizeSpinBox_setValue_ui env
    t17.factory.untilMarkTextPointSize t17).2
  rw [← e18] at u18
  -- the values the later lines read are those of the factory at the start
  have r15 : s14.factory.untilMarkShowBeats = s.factory.untilMarkShowBeats :=
    congrArg Shown.untilMarkShowBeats g14
  have r16 : t15.factory.untilMarkShowTime = s.factory.untilMarkShowTime := by
    rw [f15]; exact congrArg Shown.untilMarkShowTime g14
  have r5 : s4.factory.zoomSync = s.factory.zoomSync := by rw [f4, f2]
  have hspin := spinBound_holds _ _ H7
  refine ⟨t18, ?_, g18, ?_⟩
  · have h2' : sliderSetValue env fuel Linked.frameRate s1.factory.frameRate s1 = some s2 := by
      rw [f1]; exact h2
    have h4' : sliderSetValue env fuel Linked.endOfTrackWarningTime
        s3.factory.endOfTrackWarningTime s3 = some s4 := by
      rw [f3]; exact h4
    have h14' : sliderSetValue env fuel Linked.beatGridAlpha s13.factory.beatGridAlpha s13 =
        some s14 := by
      rw [f13]; exact h14
    subst e18 e17 e16 e15 e12 e11 e10 e9 e8 e7 e6 e5
    unfold slotUpdateValues
    refine Option.bind_eq_some.2 ⟨s1, h1, ?_⟩
    refine Option.bind_eq_some.2 ⟨s2, h2', ?_⟩
    refine Option.bind_eq_some.2 ⟨s3, h3, ?_⟩
    refine Option.bind_eq_some.2 ⟨s4, h4', ?_⟩
    refine Option.bind_eq_some.2 ⟨s13, h13, ?_⟩
    refine Option.bind_eq_some.2 ⟨s14, h14', ?_⟩
    rfl
  · rw [u18, u17, u16, u15, u14, u12, u11, u10, u9, u8, u7, u6, u5, u4, u2, p17, hspin, r15, r16,
      r5, b12, f2, f5, f6, f7, f8, f9, f10, H8, H9, H10, H11,
      comboIndex_valid _ _ H12 H13]
    exact ⟨rfl, rfl, rfl, rfl, rfl, rfl, rfl, rfl, rfl, rfl, rfl, rfl, rfl, rfl, rfl, rfl⟩

/-- Lines 207-234 of `slotUpdate` change nothing of the factory but its render
type. -/
theorem slotUpdateRenderType_factory (env : Env) (s : State) :
    (slotUpdateRenderType env s).factory =
      { s.factory with type := (slotUpdateRenderType env s).factory.type } := by
  simp only [slotUpdateRenderType, updateEnableUntilMark, waveformTypeComboBox_setCurrentIndex,
    slotSetWaveformType]
  split_ifs <;> rfl

/-- Lines 259-270 of `slotUpdate` change four widgets. -/
theorem slotUpdateOverview_ui (s : State) :
    (slotUpdateOverview s).ui =
      { s.ui with
        waveformOverviewComboBox := (slotUpdateOverview s).ui.waveformOverviewComboBox
        enableWaveformCaching := (slotUpdateOverview s).ui.enableWaveformCaching
        enableWaveformGenerationWithAnalysis :=
          (slotUpdateOverview s).ui.enableWaveformGenerationWithAnalysis
        waveformDiskUsageBytes := (slotUpdateOverview s).ui.waveformDiskUsageBytes } := by
  simp only [slotUpdateOverview, calculateCachedWaveformDiskUsage,
    waveformOverviewComboBox_setCurrentIndex, slotSetWaveformOverviewType]
  split_ifs <;> rfl

/-- The widgets after `slotUpdate` when the values of the factory lie inside the
ranges of the widgets. -/
theorem slotUpdate_inRange (env : Env) (fuel : Nat) (s : State) (hf : 4 ≤ fuel)
    (H : InRange env s.factory) :
    ∃ s', slotUpdate env fuel s = some s' ∧
      s'.factory.shown = s.factory.shown ∧
      s'.ui.frameRateSpinBox.value = s.factory.frameRate ∧
      s'.ui.frameRateSlider.value = s.factory.frameRate ∧
      s'.ui.endOfTrackWarningTimeSpinBox.value = s.factory.endOfTrackWarningTime ∧
      s'.ui.endOfTrackWarningTimeSlider.value = s.factory.endOfTrackWarningTime ∧
      s'.ui.beatGridAlphaSpinBox.value = s.factory.beatGridAlpha ∧
      s'.ui.beatGridAlphaSlider.value = s.factory.beatGridAlpha ∧
      s'.ui.synchronizeZoomCheckBox.checked = s.factory.zoomSync ∧
      s'.ui.normalizeOverviewCheckBox.checked = s.factory.overviewNormalized ∧
      s'.ui.allVisualGain.value = s.factory.getVisualGain BandIndex.All ∧
      s'.ui.lowVisualGain.value = s.factory.getVisualGain BandIndex.Low ∧
      s'.ui.midVisualGain.value = s.factory.getVisualGain BandIndex.Mid ∧
      s'.ui.highVisualGain.value = s.factory.getVisualGain BandIndex.High ∧
      s'.ui.untilMarkShowBeatsCheckBox.checked = s.factory.untilMarkShowBeats ∧
      s'.ui.untilMarkShowTimeCheckBox.checked = s.factory.untilMarkShowTime ∧
      s'.ui.untilMarkTextPointSizeSpinBox.value = s.factory.untilMarkTextPointSize ∧
      s'.ui.defaultZoomComboBox.currentIndex = truncToInt s.factory.defaultZoom - 1 := by
  have hfac := slotUpdateRenderType_factory env s
  have H1 : InRange env (slotUpdateRenderType env s).factory := by
    rw [hfac]; exact H
  obtain ⟨s2, h2, g, a1, a2, a3, a4, a5, a6, a7, a8, a9, a10, a11, a12, a13, a14, a15, a16⟩ :=
    slotUpdateValues_inRange env fuel (slotUpdateRenderType env s) hf H1
  rw [hfac] at g a1 a2 a3 a4 a5 a6 a7 a8 a9 a10 a11 a12 a13 a14 a15 a16
  have hui := slotUpdateOverview_ui s2
  have hof := (slotUpdateOverview_facts s2).1
  refine ⟨slotUpdateOverview s2, by simp [slotUpdate, h2], ?_⟩
  rw [hof, hui]
  exact ⟨g, a1, a2, a3, a4, a5, a6, a7, a8, a9, a10, a11, a12, a13, a14, a15, a16⟩

/-! ## Helper lemmas: the widgets after lines 236-257 when the integers are in range -/

theorem allVisualGain_setValue_noGain (env : Env) (v : ℚ) (s : State) :
    (allVisualGain_setValue env v s).factory.noGain = s.factory.noGain ∧
    (allVisualGain_setValue env v s).factory.getVisualGain BandIndex.Low =
      s.factory.getVisualGain BandIndex.Low ∧
    (allVisualGain_setValue env v s).factory.getVisualGain BandIndex.Mid =
      s.factory.getVisualGain BandIndex.Mid ∧
    (allVisualGain_setValue env v s).factory.getVisualGain BandIndex.High =
      s.factory.getVisualGain BandIndex.High := by
  simp only [allVisualGain_setValue]
  split_ifs <;> exact ⟨rfl, rfl, rfl, rfl⟩

theorem lowVisualGain_setValue_noGain (env : Env) (v : ℚ) (s : State) :
    (lowVisualGain_setValue env v s).factory.noGain = s.factory.noGain ∧
    (lowVisualGain_setValue env v s).factory.getVisualGain BandIndex.Mid =
      s.factory.getVisualGain BandIndex.Mid ∧
    (lowVisualGain_setValue env v s).factory.getVisualGain BandIndex.High =
      s.factory.getVisualGain BandIndex.High ∧
    (lowVisualGain_setValue env v s).factory.getVisualGain BandIndex.All =
      s.factory.getVisualGain BandIndex.All := by
  simp only [lowVisualGain_setValue]
  split_ifs <;> exact ⟨rfl, rfl, rfl, rfl⟩

theorem midVisualGain_setValue_noGain (env : Env) (v : ℚ) (s : State) :
    (midVisualGain_setValue env v s).factory.noGain = s.factory.noGain ∧
    (midVisualGain_setValue env v s).factory.getVisualGain BandIndex.High =
      s.factory.getVisualGain BandIndex.High ∧
    (midVisualGain_setValue env v s).factory.getVisualGain BandIndex.All =
      s.factory.getVisualGain BandIndex.All := by
  simp only [midVisualGain_setValue]
  split_ifs <;> exact ⟨rfl, rfl, rfl⟩

theorem highVisualGain_setValue_noGain (env : Env) (v : ℚ) (s : State) :
    (highVisualGain_setValue env v s).factory.noGain = s.factory.noGain ∧
    (highVisualGain_setValue env v s).factory.getVisualGain BandIndex.All =
      s.factory.getVisualGain BandIndex.All := by
  simp only [highVisualGain_setValue]
  split_ifs <;> exact ⟨rfl, rfl⟩

theorem allVisualGain_setValue_unconnected (env : Env) (v : ℚ) (s : State)
    (h : s.connected = false) :
    (allVisualGain_setValue env v s).factory = s.factory := by
  simp only [allVisualGain_setValue]
  split_ifs with a b
  · rfl
  · exact absurd (show s.connected = true from b) (by simp [h])
  · rfl

theorem slotUpdateRenderType_connected (env : Env) (s : State) :
    (slotUpdateRenderType env s).connected = s.connected := by
  simp only [slotUpdateRenderType, updateEnableUntilMark, waveformTypeComboBox_setCurrentIndex,
    slotSetWaveformType]
  split_ifs <;> rfl

theorem noGain_fields (f g : WaveformWidgetFactory) (h : f.noGain = g.noGain) :
    f.overviewNormalized = g.overviewNormalized ∧
    f.defaultZoom = g.defaultZoom ∧
    f.beatGridAlpha = g.beatGridAlpha ∧
    f.untilMarkShowBeats = g.untilMarkShowBeats ∧
    f.untilMarkShowTime = g.untilMarkShowTime ∧
    f.untilMarkTextPointSize = g.untilMarkTextPointSize := by
  simp only [WaveformWidgetFactory.noGain, WaveformWidgetFactory.mk.injEq] at h
  tauto

/-- Lines 236-257 of `slotUpdate` when the integer values of the factory lie
inside the ranges of the widgets: the integer widgets and the check boxes show the
values, and each gain spin box shows the gain as the box fits it. -/
theorem slotUpdateValues_range (env : Env) (fuel : Nat) (s : State) (hf : 4 ≤ fuel)
    (H : InRangeInt env s.factory) :
    ∃ s', slotUpdateValues env fuel s = some s' ∧
      s'.ui.frameRateSpinBox.value = s.factory.frameRate ∧
      s'.ui.frameRateSlider.value = s.factory.frameRate ∧
      s'.ui.endOfTrackWarningTimeSpinBox.value = s.factory.endOfTrackWarningTime ∧
      s'.ui.endOfTrackWarningTimeSlider.value = s.factory.endOfTrackWarningTime ∧
      s'.ui.beatGridAlphaSpinBox.value = s.factory.beatGridAlpha ∧
      s'.ui.beatGridAlphaSlider.value = s.factory.beatGridAlpha ∧
      s'.ui.synchronizeZoomCheckBox.checked = s.factory.zoomSync ∧
      s'.ui.normalizeOverviewCheckBox.checked = s.factory.overviewNormalized ∧
      s'.ui.allVisualGain.value =
        env.allVisualGain.fit (s.factory.getVisualGain BandIndex.All) ∧
      s'.ui.lowVisualGain.value =
        env.lowVisualGain.fit (s.factory.getVisualGain BandIndex.Low) ∧
      s'.ui.midVisualGain.value =
        env.midVisualGain.fit (s.factory.getVisualGain BandIndex.Mid) ∧
      s'.ui.highVisualGain.value =
        env.highVisualGain.fit (s.factory.getVisualGain BandIndex.High) ∧
      s'.ui.untilMarkShowBeatsCheckBox.checked = s.factory.untilMarkShowBeats ∧
      s'.ui.untilMarkShowTimeCheckBox.checked = s.factory.untilMarkShowTime ∧
      s'.ui.untilMarkTextPointSizeSpinBox.value = s.factory.untilMarkTextPointSize ∧
      s'.ui.defaultZoomComboBox.currentIndex = truncToInt s.factory.defaultZoom - 1 ∧
      (s.connected = false →
        s'.factory.getVisualGain BandIndex.All = s.factory.getVisualGain BandIndex.All) := by
  obtain ⟨H1, H2, H3, H4, H5, H6, H7, H12, H13⟩ := H
  have hf3 : 3 ≤ fuel := by omega
  -- lines 236-239
  obtain ⟨s1, h1, f1, s2, h2, f2, c2, u2⟩ :=
    linked_sync env fuel Linked.frameRate s.factory.frameRate s hf3 H1 H2 rfl
  obtain ⟨s3, h3, f3, s4, h4, f4, c4, u4⟩ :=
    linked_sync env fuel Linked.endOfTrackWarningTime s2.factory.endOfTrackWarningTime s2 hf3
      (by rw [f2]; exact H3) (by rw [f2]; exact H4) rfl
  -- lines 240-248
  obtain ⟨t5, e5⟩ : ∃ t : State, t = { s4 with ui.synchronizeZoomCheckBox :=
    (s4.ui.synchronizeZoomCheckBox.setChecked s4.factory.zoomSync) } := ⟨_, rfl⟩
  have f5 : t5.factory = s.factory := by rw [e5]; exact f4.trans f2
  have u5 : t5.ui = { s4.ui with synchronizeZoomCheckBox :=
    (s4.ui.synchronizeZoomCheckBox.setChecked s4.factory.zoomSync) } := by rw [e5]
  obtain ⟨t6, e6⟩ : ∃ t : State,
    t = allVisualGain_setValue env (t5.factory.getVisualGain BandIndex.All) t5 := ⟨_, rfl⟩
  obtain ⟨n6, l6, m6, g6⟩ :=
    allVisualGain_setValue_noGain env (t5.factory.getVisualGain BandIndex.All) t5
  have u6 := (allVisualGain_setValue_ui env (t5.factory.getVisualGain BandIndex.All) t5).2
  have A6 : s.connected = false →
      t6.factory.getVisualGain BandIndex.All = s.factory.getVisualGain BandIndex.All := by
    intro hcon
    have c5 : t5.connected = false := by rw [e5]; exact (c4.trans c2).trans hcon
    rw [e6, allVisualGain_setValue_unconnected env _ t5 c5, f5]
  rw [← e6] at u6 n6 l6 m6 g6
  rw [f5] at n6 l6 m6 g6
  obtain ⟨t7, e7⟩ : ∃ t : State,
    t = lowVisualGain_setValue env (t6.factory.getVisualGain BandIndex.Low) t6 := ⟨_, rfl⟩
  obtain ⟨n7, m7, g7, A7⟩ :=
    lowVisualGain_setValue_noGain env (t6.factory.getVisualGain BandIndex.Low) t6
  have u7 := (lowVisualGain_setValue_ui env (t6.factory.getVisualGain BandIndex.Low) t6).2
  rw [← e7] at u7 n7 m7 g7 A7
  rw [n6] at n7
  rw [m6] at m7
  rw [g6] at g7
  obtain ⟨t8, e8⟩ : ∃ t : State,
    t = midVisualGain_setValue env (t7.factory.getVisualGain BandIndex.Mid) t7 := ⟨_, rfl⟩
  obtain ⟨n8, g8, A8⟩ :=
    midVisualGain_setValue_noGain env (t7.factory.getVisualGain BandIndex.Mid) t7
  have u8 := (midVisualGain_setValue_ui env (t7.factory.getVisualGain BandIndex.Mid) t7).2
  rw [← e8] at u8 n8 g8 A8
  rw [n7] at n8
  rw [g7] at g8
  obtain ⟨t9, e9⟩ : ∃ t : State,
    t = highVisualGain_setValue env (t8.factory.getVisualGain BandIndex.High) t8 := ⟨_, rfl⟩
  obtain ⟨n9, A9⟩ :=
    highVisualGain_setValue_noGain env (t8.factory.getVisualGain BandIndex.High) t8
  have u9 := (highVisualGain_setValue_ui env (t8.factory.getVisualGain BandIndex.High) t8).2
  rw [← e9] at u9 n9 A9
  rw [n8] at n9
  obtain ⟨t10, e10⟩ : ∃ t : State,
    t = normalizeOverviewCheckBox_setChecked t9.factory.overviewNormalized t9 := ⟨_, rfl⟩
  have f10 : t10.factory = t9.factory := by
    rw [e10, normalizeOverviewCheckBox_setChecked_factory]
  have n10 : t10.factory.noGain = s.factory.noGain := by rw [f10, n9]
  have u10 := (normalizeOverviewCheckBox_setChecked_ui t9.factory.overviewNormalized t9).2
  rw [← e10] at u10
  have q10 : t9.factory.overviewNormalized = s.factory.overviewNormalized :=
    (noGain_fields _ _ n9).1
  obtain ⟨-, q11, qb, qsb, qst, qps⟩ := noGain_fields _ _ n10
  obtain ⟨t11, e11⟩ : ∃ t : State,
    t = defaultZoomComboBox_setCurrentIndex env (truncToInt t10.factory.defaultZoom - 1) t10 :=
    ⟨_, rfl⟩
  have g11 : t11.factory.shown = t10.factory.shown := by
    rw [e11, defaultZoomComboBox_setCurrentIndex_shown env t10 (by rw [q11]; exact H12)
      (by rw [q11]; exact H13)]
  have u11 := (defaultZoomComboBox_setCurrentIndex_ui env
    (truncToInt t10.factory.defaultZoom - 1) t10).2
  rw [← e11] at u11
  obtain ⟨t12, e12⟩ : ∃ t : State,
    t = playMarkerPositionSlider_setValue env
      (truncToInt (t11.factory.playMarkerPosition * 100)) t11 := ⟨_, rfl⟩
  have g12 : t12.factory.shown = t10.factory.shown := by
    rw [e12, playMarkerPositionSlider_setValue_shown, g11]
  have u12 := (playMarkerPositionSlider_setValue_ui env
    (truncToInt (t11.factory.playMarkerPosition * 100)) t11).2
  rw [← e12] at u12
  -- lines 249-250
  have b12 : t12.factory.beatGridAlpha = s.factory.beatGridAlpha :=
    (congrArg Shown.beatGridAlpha g12).trans qb
  obtain ⟨s13, h13, f13, s14, h14, f14, -, u14⟩ :=
    linked_sync env fuel Linked.beatGridAlpha t12.factory.beatGridAlpha t12 hf3
      (by rw [b12]; exact H5) (by rw [b12]; exact H6) rfl
  have g14 : s14.factory.shown = t10.factory.shown := by rw [f14, g12]
  -- lines 252-257
  obtain ⟨t15, e15⟩ : ∃ t : State,
    t = untilMarkShowBeatsCheckBox_setChecked s14.factory.untilMarkShowBeats s14 := ⟨_, rfl⟩
  have f15 : t15.factory = s14.factory := by
    rw [e15, untilMarkShowBeatsCheckBox_setChecked_factory]
  have u15 := (untilMarkShowBeatsCheckBox_setChecked_ui s14.factory.untilMarkShowBeats s14).2
  rw [← e15] at u15
  obtain ⟨t16, e16⟩ : ∃ t : State,
    t = untilMarkShowTimeCheckBox_setChecked t15.factory.untilMarkShowTime t15 := ⟨_, rfl⟩
  have f16 : t16.factory = s14.factory := by
    rw [e16, untilMarkShowTimeCheckBox_setChecked_factory, f15]
  have u16 := (untilMarkShowTimeCheckBox_setChecked_ui t15.factory.untilMarkShowTime t15).2
  rw [← e16] at u16
  obtain ⟨t17, e17⟩ : ∃ t : State,
    t = untilMarkAlignComboBox_setCurrentIndex env
      (env.toUntilMarkAlignIndex t16.factory.untilMarkAlign) t16 := ⟨_, rfl⟩
  have g17 : t17.factory.shown = t10.factory.shown := by
    rw [e17, untilMarkAlignComboBox_setCurrentIndex_shown, f16, g14]
  have u17 := (untilMarkAlignComboBox_setCurrentIndex_ui env
    (env.toUntilMarkAlignIndex t16.factory.untilMarkAlign) t16).2
  rw [← e17] at u17
  have p17 : t17.factory.untilMarkTextPointSize = s.factory.untilMarkTextPointSize :=
    (congrArg Shown.untilMarkTextPointSize g17).trans qps
  obtain ⟨t18, e18⟩ : ∃ t : State,
    t = untilMarkTextPointSizeSpinBox_setValue env t17.factory.untilMarkTextPointSize t17 :=
    ⟨_, rfl⟩
  have g18 : t18.factory.shown = t10.factory.shown := by
    rw [e18, untilMarkTextPointSizeSpinBox_setValue_factory env t17 (by rw [p17]; exact H7),
      g17]
  have A18 : s.connected = false →
      t18.factory.getVisualGain BandIndex.All = s.factory.getVisualGain BandIndex.All := by
    intro hcon
    have a10 : t10.factory.getVisualGain BandIndex.All =
        s.factory.getVisualGain BandIndex.All := by
      rw [f10, A9, A8, A7, A6 hcon]
    exact (congrArg Shown.visualGainAll g18).trans a10
  have u18 := (untilMarkTextPointSizeSpinBox_setValue_ui env
    t17.factory.untilMarkTextPointSize t17).2
  rw [← e18] at u18
  -- the values the later lines read are those of the factory at the start
  have r15 : s14.factory.untilMarkShowBeats = s.factory.untilMarkShowBeats :=
    (congrArg Shown.untilMarkShowBeats g14).trans qsb
  have r16 : t15.factory.untilMarkShowTime = s.factory.untilMarkShowTime := by
    rw [f15]
    exact (congrArg Shown.untilMarkShowTime g14).trans qst
  have r5 : s4.factory.zoomSync = s.factory.zoomSync := by rw [f4, f2]
  have hspin := spinBound_holds _ _ H7
  refine ⟨t18, ?_, ?_⟩
  swap
  · refine ⟨?_, ?_, ?_, ?_, ?_, ?_, ?_, ?_, ?_, ?_, ?_, ?_, ?_, ?_, ?_, ?_, A18⟩ <;>
      rw [u18, u17, u16, u15, u14, u12, u11, u10, u9, u8, u7, u6, u5, u4, u2, p17, hspin, r15,
        r16, r5, b12, f2, f5, l6, m7, g8, q10, q11, comboIndex_valid _ _ H12 H13] <;> rfl
  · have h2' : sliderSetValue env fuel Linked.frameRate s1.factory.frameRate s1 = some s2 := by
      rw [f1]; exact h2
    have h4' : sliderSetValue env fuel Linked.endOfTrackWarningTime
        s3.factory.endOfTrackWarningTime s3 = some s4 := by
      rw [f3]; exact h4
    have h14' : sliderSetValue env fuel Linked.beatGridAlpha s13.factory.beatGridAlpha s13 =
        some s14 := by
      rw [f13]; exact h14
    subst e18 e17 e16 e15 e12 e11 e10 e9 e8 e7 e6 e5
    unfold slotUpdateValues
    refine Option.bind_eq_some.2 ⟨s1, h1, ?_⟩
    refine Option.bind_eq_some.2 ⟨s2, h2', ?_⟩
    refine Option.bind_eq_some.2 ⟨s3, h3, ?_⟩
    refine Option.bind_eq_some.2 ⟨s4, h4', ?_⟩
    refine Option.bind_eq_some.2 ⟨s13, h13, ?_⟩
    refine Option.bind_eq_some.2 ⟨s14, h14', ?_⟩
    rfl

/-- The widgets after `slotUpdate` when the integer values of the factory lie
inside the ranges of the widgets. -/
theorem slotUpdate_range (env : Env) (fuel : Nat) (s : State) (hf : 4 ≤ fuel)
    (H : InRangeInt env s.factory) :
    ∃ s', slotUpdate env fuel s = some s' ∧
      s'.ui.frameRateSpinBox.value = s.factory.frameRate ∧
      s'.ui.frameRateSlider.value = s.factory.frameRate ∧
      s'.ui.endOfTrackWarningTimeSpinBox.value = s.factory.endOfTrackWarningTime ∧
      s'.ui.endOfTrackWarningTimeSlider.value = s.factory.endOfTrackWarningTime ∧
      s'.ui.beatGridAlphaSpinBox.value = s.factory.beatGridAlpha ∧
      s'.ui.beatGridAlphaSlider.value = s.factory.beatGridAlpha ∧
      s'.ui.synchronizeZoomCheckBox.checked = s.factory.zoomSync ∧
      s'.ui.normalizeOverviewCheckBox.checked = s.factory.overviewNormalized ∧
      s'.ui.allVisualGain.value =
        env.allVisualGain.fit (s.factory.getVisualGain BandIndex.All) ∧
      s'.ui.lowVisualGain.value =
        env.lowVisualGain.fit (s.factory.getVisualGain BandIndex.Low) ∧
      s'.ui.midVisualGain.value =
        env.midVisualGain.fit (s.factory.getVisualGain BandIndex.Mid) ∧
      s'.ui.highVisualGain.value =
        env.highVisualGain.fit (s.factory.getVisualGain BandIndex.High) ∧
      s'.ui.untilMarkShowBeatsCheckBox.checked = s.factory.untilMarkShowBeats ∧
      s'.ui.untilMarkShowTimeCheckBox.checked = s.factory.untilMarkShowTime ∧
      s'.ui.untilMarkTextPointSizeSpinBox.value = s.factory.untilMarkTextPointSize ∧
      s'.ui.defaultZoomComboBox.currentIndex = truncToInt s.factory.defaultZoom - 1 ∧
      (s.connected = false →
        s'.factory.getVisualGain BandIndex.All = s.factory.getVisualGain BandIndex.All) := by
  have hfac := slotUpdateRenderType_factory env s
  have H1 : InRangeInt env (slotUpdateRenderType env s).factory := by
    rw [hfac]; exact H
  obtain ⟨s2, h2, a1, a2, a3, a4, a5, a6, a7, a8, a9, a10, a11, a12, a13, a14, a15, a16, a17⟩ :=
    slotUpdateValues_range env fuel (slotUpdateRenderType env s) hf H1
  rw [slotUpdateRenderType_connected] at a17
  rw [hfac] at a1 a2 a3 a4 a5 a6 a7 a8 a9 a10 a11 a12 a13 a14 a15 a16 a17
  have hui := slotUpdateOverview_ui s2
  have hof := (slotUpdateOverview_facts s2).1
  refine ⟨slotUpdateOverview s2, by simp [slotUpdate, h2], ?_⟩
  rw [hui, hof]
  exact ⟨a1, a2, a3, a4, a5, a6, a7, a8, a9, a10, a11, a12, a13, a14, a15, a16, a17⟩

/-! ## C3 -/

/-- The two-decimal spin box of the example fits the gain 1.234 to 1.23. -/
theorem fit_gain_example :
    env1.allVisualGain.fit (state1.factory.getVisualGain BandIndex.All) = 123 / 100 := by
  show gainForm2.fit (617 / 500) = 123 / 100
  have hfl : ⌊(617 / 500 : ℚ) * 100 + 1 / 2⌋ = 123 := by
    rw [Int.floor_eq_iff]
    norm_num
  simp only [DoubleForm.fit, gainForm2, round2, hfl]
  norm_num

/-- A slider and its spin box after `setValue v` on the slider, for a value inside
both ranges: the slider holds `v`, and nothing but the pair changed among the
widgets. -/
theorem sliderSetValue_inRange (env : Env) (fuel : Nat) (p : Linked) (v : Int) (s : State)
    (hf : 3 ≤ fuel) (hsp : (env.spinRange p).holds v) (hsl : (env.sliderRange p).holds v) :
    ∃ s1 x, sliderSetValue env fuel p v s = some s1 ∧
      s1.ui = (s.ui.withSliderValue v p).withSpinValue x p := by
  obtain ⟨n, rfl⟩ : ∃ n, fuel = n + 3 := ⟨fuel - 3, by omega⟩
  have e1 := spinBound_holds _ _ hsp
  have e2 := sliderBound_holds _ _ hsl
  by_cases h1 : v = s.ui.sliderValue p
  · refine ⟨s, s.ui.spinValue p, by simp [sliderSetValue, e2, ← h1], ?_⟩
    have u1 : s.ui.withSliderValue v p = s.ui := by rw [h1]; exact withSliderValue_self _ _
    rw [u1, withSpinValue_self]
  · have u2 : (s.ui.withSliderValue v p).withSpinValue (s.ui.spinValue p) p =
        s.ui.withSliderValue v p := by
      have := withSpinValue_self (s.ui.withSliderValue v p) p
      rwa [spinValue_withSliderValue] at this
    by_cases hcon : s.connected = true
    · by_cases h2 : v = s.ui.spinValue p
      · refine ⟨{ s with ui := s.ui.withSliderValue v p }, s.ui.spinValue p, ?_, u2.symm⟩
        simp [sliderSetValue, spinBoxSetValue, e1, e2, h1, hcon, spinValue_withSliderValue,
          ← h2]
      · refine ⟨spinBoxSlot p v
          { s with ui := (s.ui.withSliderValue v p).withSpinValue v p }, v, ?_, ?_⟩
        · simp [sliderSetValue, spinBoxSetValue, e1, e2, h1, h2, hcon,
            spinValue_withSliderValue, spinBoxSlot_ui, sliderValue_withSpinValue,
            sliderValue_withSliderValue]
        · rw [spinBoxSlot_ui]
    · have hcon2 : s.connected = false := by simpa using hcon
      refine ⟨{ s with ui := s.ui.withSliderValue v p }, s.ui.spinValue p, ?_, u2.symm⟩
      simp [sliderSetValue, e2, h1, hcon2]

/-- A spin box after `setValue v`, for a value inside both ranges that its slider
already holds: the spin box holds `v`, and no other widget changed. -/
theorem spinBoxSetValue_after (env : Env) (fuel : Nat) (p : Linked) (v : Int) (s : State)
    (hf : 2 ≤ fuel) (hsp : (env.spinRange p).holds v) (hsl : (env.sliderRange p).holds v)
    (hs : s.ui.sliderValue p = v) :
    ∃ s1, spinBoxSetValue env fuel p v s = some s1 ∧ s1.ui = s.ui.withSpinValue v p := by
  obtain ⟨n, rfl⟩ : ∃ n, fuel = n + 2 := ⟨fuel - 2, by omega⟩
  have e1 := spinBound_holds _ _ hsp
  have e2 := sliderBound_holds _ _ hsl
  by_cases h1 : v = s.ui.spinValue p
  · refine ⟨s, by simp [spinBoxSetValue, e1, ← h1], ?_⟩
    rw [h1, withSpinValue_self]
  · by_cases hcon : s.connected = true
    · refine ⟨spinBoxSlot p v { s with ui := s.ui.withSpinValue v p }, ?_, ?_⟩
      · simp [spinBoxSetValue, sliderSetValue, e1, e2, h1, hcon, spinBoxSlot_ui,
          sliderValue_withSpinValue, hs]
      · rw [spinBoxSlot_ui]
    · have hcon2 : s.connected = false := by simpa using hcon
      exact ⟨{ s with ui := s.ui.withSpinValue v p },
        by simp [spinBoxSetValue, e1, h1, hcon2], rfl⟩

theorem sliderSetValue_same (env : Env) (n : Nat) (p : Linked) (v : Int) (s : State)
    (h : (env.sliderRange p).sliderBound v = s.ui.sliderValue p) :
    sliderSetValue env (n + 1) p v s = some s := by
  simp [sliderSetValue, h]

theorem spinBoxSetValue_same (env : Env) (n : Nat) (p : Linked) (v : Int) (s : State)
    (h : (env.spinRange p).spinBound v = s.ui.spinValue p) :
    spinBoxSetValue env (n + 1) p v s = some s := by
  simp [spinBoxSetValue, h]

theorem allVisualGain_setValue_same (env : Env) (v : ℚ) (s : State)
    (h : env.allVisualGain.fit v = s.ui.allVisualGain.value) :
    allVisualGain_setValue env v s = s := by
  simp [allVisualGain_setValue, h]

theorem lowVisualGain_setValue_same (env : Env) (v : ℚ) (s : State)
    (h : env.lowVisualGain.fit v = s.ui.lowVisualGain.value) :
    lowVisualGain_setValue env v s = s := by
  simp [lowVisualGain_setValue, h]

theorem midVisualGain_setValue_same (env : Env) (v : ℚ) (s : State)
    (h : env.midVisualGain.fit v = s.ui.midVisualGain.value) :
    midVisualGain_setValue env v s = s := by
  simp [midVisualGain_setValue, h]

theorem highVisualGain_setValue_same (env : Env) (v : ℚ) (s : State)
    (h : env.highVisualGain.fit v = s.ui.highVisualGain.value) :
    highVisualGain_setValue env v s = s := by
  simp [highVisualGain_setValue, h]

theorem defaultZoomComboBox_setCurrentIndex_same (env : Env) (i : Int) (s : State)
    (h : comboIndex env.defaultZoomCount i = s.ui.defaultZoomComboBox.currentIndex) :
    defaultZoomComboBox_setCurrentIndex env i s = s := by
  simp [defaultZoomComboBox_setCurrentIndex, h]

theorem waveformOverviewComboBox_setCurrentIndex_same (i : Int) (s : State)
    (h : comboIndex waveformOverviewCount i = s.ui.waveformOverviewComboBox.currentIndex) :
    waveformOverviewComboBox_setCurrentIndex i s = s := by
  simp [waveformOverviewComboBox_setCurrentIndex, h]

theorem normalizeOverviewCheckBox_setChecked_same (b : Bool) (s : State)
    (h : s.ui.normalizeOverviewCheckBox.checked = b) :
    normalizeOverviewCheckBox_setChecked b s = s := by
  subst h
  simp [normalizeOverviewCheckBox_setChecked, QCheckBox.toggles, QCheckBox.setChecked]

theorem playMarkerPositionSlider_setValue_same (env : Env) (v : Int) (s : State)
    (h : env.playMarkerPositionSlider.sliderBound v = s.ui.playMarkerPositionSlider.value) :
    playMarkerPositionSlider_setValue env v s = s := by
  simp [playMarkerPositionSlider_setValue, h]

theorem synchronizeZoomCheckBox_same (b : Bool) (s : State)
    (h : s.ui.synchronizeZoomCheckBox.checked = b) :
    ({ s with ui.synchronizeZoomCheckBox := (s.ui.synchronizeZoomCheckBox.setChecked b) } :
      State) = s := by
  subst h; rfl

theorem enableWaveformCaching_same (b : Bool) (s : State)
    (h : s.ui.enableWaveformCaching.checked = b) :
    ({ s with ui.enableWaveformCaching := (s.ui.enableWaveformCaching.setChecked b) } :
      State) = s := by
  subst h; rfl

theorem enableWaveformGenerationWithAnalysis_same (b : Bool) (s : State)
    (h : s.ui.enableWaveformGenerationWithAnalysis.checked = b) :
    ({ s with ui.enableWaveformGenerationWithAnalysis :=
      (s.ui.enableWaveformGenerationWithAnalysis.setChecked b) } : State) = s := by
  subst h; rfl

/-- The render-type combo box after the first lines of `slotResetToDefaults`
(lines 289-293): a default index that `findData` found is the current index. -/
theorem resetRenderType_index (env : Env) (d : Int) (s : State)
    (hd : d = -1 ∨ (0 ≤ d ∧ d < env.waveformTypeItems.length)) :
    d ≠ -1 →
      (if d ≠ -1 ∧ s.ui.waveformTypeComboBox.currentIndex ≠ d then
        waveformTypeComboBox_setCurrentIndex env d s else s).ui.waveformTypeComboBox.currentIndex
        = d := by
  intro hne
  rcases hd with hd | hd
  · exact absurd hd hne
  · by_cases hc : s.ui.waveformTypeComboBox.currentIndex = d
    · simp [hc]
    · have hc' : ¬ d = s.ui.waveformTypeComboBox.currentIndex := fun e => hc e.symm
      have key := fun S => (slotSetWaveformType_nonneg env d S hd.1).2.2.2.2.2.2.2.2
      simp only [ne_eq, hne, not_false_eq_true, hc, and_self, if_true,
        waveformTypeComboBox_setCurrentIndex, comboIndex_valid _ _ hd.1 hd.2, if_neg hc']
      split_ifs
      · rw [key]
      · rfl

/-! ## C7 -/

/-- C7: when the defaults lie inside the ranges of the form (`DefaultsInRange`),
`slotResetToDefaults` returns from every state and leaves the four gain spin boxes
at 1, zoom synchronisation checked, the overview combo box at index 2,
normalize-overview unchecked, the frame-rate slider at 60, the end-of-track slider at
30, waveform caching checked, generation-with-analysis unchecked, the beat-grid
alpha slider and spin box at 90 and the play-marker slider at 50; a second reset
returns the state of the first. -/
theorem slotResetToDefaults_defaults (env : Env) (fuel : Nat) (s : State) (hf : 4 ≤ fuel)
    (H : DefaultsInRange env) :
    ∃ s1, slotResetToDefaults env fuel s = some s1 ∧
      s1.ui.allVisualGain.value = 1 ∧
      s1.ui.lowVisualGain.value = 1 ∧
      s1.ui.midVisualGain.value = 1 ∧
      s1.ui.highVisualGain.value = 1 ∧
      s1.ui.synchronizeZoomCheckBox.checked = true ∧
      s1.ui.waveformOverviewComboBox.currentIndex = 2 ∧
      s1.ui.normalizeOverviewCheckBox.checked = false ∧
      s1.ui.frameRateSlider.value = 60 ∧
      s1.ui.endOfTrackWarningTimeSlider.value = 30 ∧
      s1.ui.enableWaveformCaching.checked = true ∧
      s1.ui.enableWaveformGenerationWithAnalysis.checked = false ∧
      s1.ui.beatGridAlphaSlider.value = 90 ∧
      s1.ui.beatGridAlphaSpinBox.value = 90 ∧
      s1.ui.playMarkerPositionSlider.value = 50 ∧
      slotResetToDefaults env fuel s1 = some s1 := by
  obtain ⟨H1, H2, H3, H4, H5, H6, H7, H8, H9, H10, H11⟩ := H
  obtain ⟨n, rfl⟩ : ∃ n, fuel = n + 1 := ⟨fuel - 1, by omega⟩
  have hf3 : 3 ≤ n + 1 := by omega
  have hf2 : 2 ≤ n + 1 := by omega
  -- lines 289-293
  have hd := findData_bounds
    (fun t => env.typeToInt t == env.findHandleIndexFromType kDefaultWaveform)
    env.waveformTypeItems
  obtain ⟨d, ed⟩ : ∃ d : Int, d = findData
    (fun t => env.typeToInt t == env.findHandleIndexFromType kDefaultWaveform)
    env.waveformTypeItems := ⟨_, rfl⟩
  rw [← ed] at hd
  obtain ⟨t0, e0⟩ : ∃ t : State,
    t = (if d ≠ -1 ∧ s.ui.waveformTypeComboBox.currentIndex ≠ d then
      waveformTypeComboBox_setCurrentIndex env d s else s) := ⟨_, rfl⟩
  have i0 : d ≠ -1 → t0.ui.waveformTypeComboBox.currentIndex = d := by
    rw [e0]; exact resetRenderType_index env d s hd
  -- lines 295-309
  obtain ⟨t1, e1⟩ : ∃ t : State, t = allVisualGain_setValue env 1 t0 := ⟨_, rfl⟩
  have u1 := (allVisualGain_setValue_ui env 1 t0).2
  rw [← e1] at u1
  obtain ⟨t2, e2⟩ : ∃ t : State, t = lowVisualGain_setValue env 1 t1 := ⟨_, rfl⟩
  have u2 := (lowVisualGain_setValue_ui env 1 t1).2
  rw [← e2] at u2
  obtain ⟨t3, e3⟩ : ∃ t : State, t = midVisualGain_setValue env 1 t2 := ⟨_, rfl⟩
  have u3 := (midVisualGain_setValue_ui env 1 t2).2
  rw [← e3] at u3
  obtain ⟨t4, e4⟩ : ∃ t : State, t = highVisualGain_setValue env 1 t3 := ⟨_, rfl⟩
  have u4 := (highVisualGain_setValue_ui env 1 t3).2
  rw [← e4] at u4
  obtain ⟨t5, e5⟩ : ∃ t : State, t = defaultZoomComboBox_setCurrentIndex env (3 + 1) t4 :=
    ⟨_, rfl⟩
  have u5 := (defaultZoomComboBox_setCurrentIndex_ui env (3 + 1) t4).2
  rw [← e5] at u5
  obtain ⟨t6, e6⟩ : ∃ t : State, t = { t5 with ui.synchronizeZoomCheckBox :=
    (t5.ui.synchronizeZoomCheckBox.setChecked true) } := ⟨_, rfl⟩
  have u6 : t6.ui = { t5.ui with synchronizeZoomCheckBox :=
    (t5.ui.synchronizeZoomCheckBox.setChecked true) } := by rw [e6]
  obtain ⟨t7, e7⟩ : ∃ t : State, t = waveformOverviewComboBox_setCurrentIndex 2 t6 := ⟨_, rfl⟩
  have u7 := (waveformOverviewComboBox_setCurrentIndex_ui 2 t6).2
  rw [← e7] at u7
  obtain ⟨t8, e8⟩ : ∃ t : State, t = normalizeOverviewCheckBox_setChecked false t7 := ⟨_, rfl⟩
  have u8 := (normalizeOverviewCheckBox_setChecked_ui false t7).2
  rw [← e8] at u8
  -- lines 312-313
  obtain ⟨s9, x9, h9, u9⟩ :=
    sliderSetValue_inRange env (n + 1) Linked.frameRate 60 t8 hf3 H2 H1
  obtain ⟨s10, x10, h10, u10⟩ :=
    sliderSetValue_inRange env (n + 1) Linked.endOfTrackWarningTime 30 s9 hf3 H4 H3
  -- lines 316-317
  obtain ⟨t11, e11⟩ : ∃ t : State, t = { s10 with ui.enableWaveformCaching :=
    (s10.ui.enableWaveformCaching.setChecked true) } := ⟨_, rfl⟩
  have u11 : t11.ui = { s10.ui with enableWaveformCaching :=
    (s10.ui.enableWaveformCaching.setChecked true) } := by rw [e11]
  obtain ⟨t12, e12⟩ : ∃ t : State, t = { t11 with ui.enableWaveformGenerationWithAnalysis :=
    (t11.ui.enableWaveformGenerationWithAnalysis.setChecked false) } := ⟨_, rfl⟩
  have u12 : t12.ui = { t11.ui with enableWaveformGenerationWithAnalysis :=
    (t11.ui.enableWaveformGenerationWithAnalysis.setChecked false) } := by rw [e12]
  -- lines 320-321
  obtain ⟨s13, x13, h13, u13⟩ :=
    sliderSetValue_inRange env (n + 1) Linked.beatGridAlpha 90 t12 hf3 H6 H5
  have v13 : s13.ui.sliderValue Linked.beatGridAlpha = 90 := by rw [u13]; rfl
  obtain ⟨s14, h14, u14⟩ :=
    spinBoxSetValue_after env (n + 1) Linked.beatGridAlpha 90 s13 hf2 H6 H5 v13
  -- line 324
  obtain ⟨t15, e15⟩ : ∃ t : State, t = playMarkerPositionSlider_setValue env 50 s14 :=
    ⟨_, rfl⟩
  have u15 := (playMarkerPositionSlider_setValue_ui env 50 s14).2
  rw [← e15, sliderBound_holds _ _ H7] at u15
  have hc3 : comboIndex waveformOverviewCount 2 = 2 := by decide
  -- the widgets after the reset
  have w : t15.ui.allVisualGain.value = 1 ∧
      t15.ui.lowVisualGain.value = 1 ∧
      t15.ui.midVisualGain.value = 1 ∧
      t15.ui.highVisualGain.value = 1 ∧
      t15.ui.synchronizeZoomCheckBox.checked = true ∧
      t15.ui.waveformOverviewComboBox.currentIndex = 2 ∧
      t15.ui.normalizeOverviewCheckBox.checked = false ∧
      t15.ui.frameRateSlider.value = 60 ∧
      t15.ui.endOfTrackWarningTimeSlider.value = 30 ∧
      t15.ui.enableWaveformCaching.checked = true ∧
      t15.ui.enableWaveformGenerationWithAnalysis.checked = false ∧
      t15.ui.beatGridAlphaSlider.value = 90 ∧
      t15.ui.beatGridAlphaSpinBox.value = 90 ∧
      t15.ui.playMarkerPositionSlider.value = 50 ∧
      t15.ui.defaultZoomComboBox.currentIndex = comboIndex env.defaultZoomCount (3 + 1) ∧
      t15.ui.waveformTypeComboBox.currentIndex = t0.ui.waveformTypeComboBox.currentIndex := by
    rw [u15, u14, u13, u12, u11, u10, u9, u8, u7, u6, u5, u4, u3, u2, u1, H8, H9, H10, H11, hc3]
    exact ⟨rfl, rfl, rfl, rfl, rfl, rfl, rfl, rfl, rfl, rfl, rfl, rfl, rfl, rfl, rfl, rfl⟩
  obtain ⟨w1, w2, w3, w4, w5, w6, w7, w8, w9, w10, w11, w12, w13, w14, w15, w16⟩ := w
  refine ⟨t15, ?_, w1, w2, w3, w4, w5, w6, w7, w8, w9, w10, w11, w12, w13, w14, ?_⟩
  · subst e15 e12 e11 e8 e7 e6 e5 e4 e3 e2 e1 e0 ed
    unfold slotResetToDefaults
    refine Option.bind_eq_some.2 ⟨s9, h9, ?_⟩
    refine Option.bind_eq_some.2 ⟨s10, h10, ?_⟩
    refine Option.bind_eq_some.2 ⟨s13, h13, ?_⟩
    refine Option.bind_eq_some.2 ⟨s14, h14, ?_⟩
    rfl
  · -- a second reset finds every widget at its default
    have c0 : ¬ (d ≠ -1 ∧ t15.ui.waveformTypeComboBox.currentIndex ≠ d) := by
      intro hc
      exact hc.2 (by rw [w16]; exact i0 hc.1)
    have r0 : (if d ≠ -1 ∧ t15.ui.waveformTypeComboBox.currentIndex ≠ d then
        waveformTypeComboBox_setCurrentIndex env d t15 else t15) = t15 := if_neg c0
    have r1 := allVisualGain_setValue_same env 1 t15 (by rw [H8, w1])
    have r2 := lowVisualGain_setValue_same env 1 t15 (by rw [H9, w2])
    have r3 := midVisualGain_setValue_same env 1 t15 (by rw [H10, w3])
    have r4 := highVisualGain_setValue_same env 1 t15 (by rw [H11, w4])
    have r5 := defaultZoomComboBox_setCurrentIndex_same env (3 + 1) t15 w15.symm
    have r6 := synchronizeZoomCheckBox_same true t15 w5
    have r7 := waveformOverviewComboBox_setCurrentIndex_same 2 t15 (by rw [hc3, w6])
    have r8 := normalizeOverviewCheckBox_setChecked_same false t15 w7
    have r9 := sliderSetValue_same env n Linked.frameRate 60 t15
      ((sliderBound_holds env.frameRateSlider 60 H1).trans w8.symm)
    have r10 := sliderSetValue_same env n Linked.endOfTrackWarningTime 30 t15
      ((sliderBound_holds env.endOfTrackWarningTimeSlider 30 H3).trans w9.symm)
    have r11 := enableWaveformCaching_same true t15 w10
    have r12 := enableWaveformGenerationWithAnalysis_same false t15 w11
    have r13 := sliderSetValue_same env n Linked.beatGridAlpha 90 t15
      ((sliderBound_holds env.beatGridAlphaSlider 90 H5).trans w12.symm)
    have r14 := spinBoxSetValue_same env n Linked.beatGridAlpha 90 t15
      ((spinBound_holds env.beatGridAlphaSpinBox 90 H6).trans w13.symm)
    have r15 := playMarkerPositionSlider_setValue_same env 50 t15
      ((sliderBound_holds env.playMarkerPositionSlider 50 H7).trans w14.symm)
    obtain ⟨z0, q0⟩ : ∃ t : State,
      t = (if d ≠ -1 ∧ t15.ui.waveformTypeComboBox.currentIndex ≠ d then
        waveformTypeComboBox_setCurrentIndex env d t15 else t15) := ⟨_, rfl⟩
    have k0 : z0 = t15 := q0.trans r0
    obtain ⟨z1, q1⟩ : ∃ t : State, t = allVisualGain_setValue env 1 z0 := ⟨_, rfl⟩
    have k1 : z1 = t15 := by rw [q1, k0, r1]
    obtain ⟨z2, q2⟩ : ∃ t : State, t = lowVisualGain_setValue env 1 z1 := ⟨_, rfl⟩
    have k2 : z2 = t15 := by rw [q2, k1, r2]
    obtain ⟨z3, q3⟩ : ∃ t : State, t = midVisualGain_setValue env 1 z2 := ⟨_, rfl⟩
    have k3 : z3 = t15 := by rw [q3, k2, r3]
    obtain ⟨z4, q4⟩ : ∃ t : State, t = highVisualGain_setValue env 1 z3 := ⟨_, rfl⟩
    have k4 : z4 = t15 := by rw [q4, k3, r4]
    obtain ⟨z5, q5⟩ : ∃ t : State, t = defaultZoomComboBox_setCurrentIndex env (3 + 1) z4 :=
      ⟨_, rfl⟩
    have k5 : z5 = t15 := by rw [q5, k4, r5]
    obtain ⟨z6, q6⟩ : ∃ t : State, t = { z5 with ui.synchronizeZoomCheckBox :=
      (z5.ui.synchronizeZoomCheckBox.setChecked true) } := ⟨_, rfl⟩
    have k6 : z6 = t15 := by rw [q6, k5]; exact r6
    obtain ⟨z7, q7⟩ : ∃ t : State, t = waveformOverviewComboBox_setCurrentIndex 2 z6 :=
      ⟨_, rfl⟩
    have k7 : z7 = t15 := by rw [q7, k6, r7]
    obtain ⟨z8, q8⟩ : ∃ t : State, t = normalizeOverviewCheckBox_setChecked false z7 :=
      ⟨_, rfl⟩
    have k8 : z8 = t15 := by rw [q8, k7, r8]
    have g9 : sliderSetValue env (n + 1) Linked.frameRate 60 z8 = some t15 := by
      rw [k8]; exact r9
    obtain ⟨z11, q11⟩ : ∃ t : State, t = { t15 with ui.enableWaveformCaching :=
      (t15.ui.enableWaveformCaching.setChecked true) } := ⟨_, rfl⟩
    have k11 : z11 = t15 := q11.trans r11
    obtain ⟨z12, q12⟩ : ∃ t : State, t = { z11 with ui.enableWaveformGenerationWithAnalysis :=
      (z11.ui.enableWaveformGenerationWithAnalysis.setChecked false) } := ⟨_, rfl⟩
    have k12 : z12 = t15 := by rw [q12, k11]; exact r12
    have g13 : sliderSetValue env (n + 1) Linked.beatGridAlpha 90 z12 = some t15 := by
      rw [k12]; exact r13
    have g15 : some (playMarkerPositionSlider_setValue env 50 t15) = some t15 := by rw [r15]
    subst q12 q11 q8 q7 q6 q5 q4 q3 q2 q1 q0 ed
    unfold slotResetToDefaults
    refine Option.bind_eq_some.2 ⟨t15, g9, ?_⟩
    refine Option.bind_eq_some.2 ⟨t15, r10, ?_⟩
    refine Option.bind_eq_some.2 ⟨t15, g13, ?_⟩
    refine Option.bind_eq_some.2 ⟨t15, r14, ?_⟩
    exact g15

/-- C7, applied: the defaults lie inside the ranges of the example form, and a
reset of the example page leaves the frame-rate slider at 60 and the overview combo
box at index 2. -/
theorem slotResetToDefaults_defaults_witness :
    4 ≤ 8 ∧ DefaultsInRange env0 ∧
    ∃ s1, slotResetToDefaults env0 8 state0 = some s1 ∧
      s1.ui.frameRateSlider.value = 60 ∧ s1.ui.waveformOverviewComboBox.currentIndex = 2 ∧
      slotResetToDefaults env0 8 s1 = some s1 :=
  ⟨by decide, by decide,
    match slotResetToDefaults_defaults env0 8 state0 (by decide) (by decide) with
    | ⟨s1, h, _, _, _, _, _, a, _, b, _, _, _, _, _, _, c⟩ => ⟨s1, h, b, a, c⟩⟩

/-! ## Helper lemmas: the default zoom through `slotResetToDefaults` -/

/-- What the three steps of a linked `setValue` leave alone, the whole call leaves
alone. -/
theorem linked_invariant {α : Type} (env : Env) (f : State → α)
    (h1 : ∀ (p : Linked) (v : Int) (s : State),
      f { s with ui := s.ui.withSpinValue v p } = f s)
    (h2 : ∀ (p : Linked) (v : Int) (s : State),
      f { s with ui := s.ui.withSliderValue v p } = f s)
    (h3 : ∀ (p : Linked) (v : Int) (s : State), f (spinBoxSlot p v s) = f s)
    (fuel : Nat) :
    ∀ (p : Linked) (v : Int) (s s' : State),
      (spinBoxSetValue env fuel p v s = some s' → f s' = f s) ∧
      (sliderSetValue env fuel p v s = some s' → f s' = f s) := by
  induction fuel with
  | zero =>
    intro p v s s'
    simp [spinBoxSetValue, sliderSetValue]
  | succ n ih =>
    intro p v s s'
    constructor
    · intro h
      simp only [spinBoxSetValue] at h
      split_ifs at h with c1 c2
      · cases h; rfl
      · rw [((ih p _ _ s').2 h), h3, h1]
      · cases h; exact h1 p _ s
    · intro h
      simp only [sliderSetValue] at h
      split_ifs at h with c1 c2
      · cases h; rfl
      · rw [((ih p _ _ s').1 h), h2]
      · cases h; exact h2 p _ s

theorem linked_zoomPart (env : Env) (fuel : Nat) (p : Linked) (v : Int) (s s' : State) :
    (spinBoxSetValue env fuel p v s = some s' → s'.zoomPart = s.zoomPart) ∧
    (sliderSetValue env fuel p v s = some s' → s'.zoomPart = s.zoomPart) :=
  linked_invariant env State.zoomPart
    (fun p _ _ => by cases p <;> rfl) (fun p _ _ => by cases p <;> rfl)
    (fun p _ _ => by cases p <;> rfl) fuel p v s s'

theorem waveformTypeComboBox_setCurrentIndex_zoomPart (env : Env) (i : Int) (s : State) :
    (waveformTypeComboBox_setCurrentIndex env i s).zoomPart = s.zoomPart := by
  simp only [waveformTypeComboBox_setCurrentIndex, slotSetWaveformType, updateEnableUntilMark]
  split_ifs <;> rfl

theorem resetRenderType_zoomPart (env : Env) (c : Prop) [Decidable c] (i : Int) (s : State) :
    (if c then waveformTypeComboBox_setCurrentIndex env i s else s).zoomPart = s.zoomPart := by
  split_ifs
  · exact waveformTypeComboBox_setCurrentIndex_zoomPart env i s
  · rfl

theorem allVisualGain_setValue_zoomPart (env : Env) (v : ℚ) (s : State) :
    (allVisualGain_setValue env v s).zoomPart = s.zoomPart := by
  simp only [allVisualGain_setValue]; split_ifs <;> rfl

theorem lowVisualGain_setValue_zoomPart (env : Env) (v : ℚ) (s : State) :
    (lowVisualGain_setValue env v s).zoomPart = s.zoomPart := by
  simp only [lowVisualGain_setValue]; split_ifs <;> rfl

theorem midVisualGain_setValue_zoomPart (env : Env) (v : ℚ) (s : State) :
    (midVisualGain_setValue env v s).zoomPart = s.zoomPart := by
  simp only [midVisualGain_setValue]; split_ifs <;> rfl

theorem highVisualGain_setValue_zoomPart (env : Env) (v : ℚ) (s : State) :
    (highVisualGain_setValue env v s).zoomPart = s.zoomPart := by
  simp only [highVisualGain_setValue]; split_ifs <;> rfl

theorem waveformOverviewComboBox_setCurrentIndex_zoomPart (i : Int) (s : State) :
    (waveformOverviewComboBox_setCurrentIndex i s).zoomPart = s.zoomPart := by
  simp only [waveformOverviewComboBox_setCurrentIndex]; split_ifs <;> rfl

theorem normalizeOverviewCheckBox_setChecked_zoomPart (b : Bool) (s : State) :
    (normalizeOverviewCheckBox_setChecked b s).zoomPart = s.zoomPart := by
  simp only [normalizeOverviewCheckBox_setChecked]; split_ifs <;> rfl

theorem playMarkerPositionSlider_setValue_zoomPart (env : Env) (v : Int) (s : State) :
    (playMarkerPositionSlider_setValue env v s).zoomPart = s.zoomPart := by
  simp only [playMarkerPositionSlider_setValue]; split_ifs <;> rfl

/-- The zoom part after `defaultZoomComboBox->setCurrentIndex` depends on the zoom
part before it only. -/
theorem defaultZoomComboBox_setCurrentIndex_congr (env : Env) (i : Int) (s t : State)
    (h : s.zoomPart = t.zoomPart) :
    (defaultZoomComboBox_setCurrentIndex env i s).zoomPart =
      (defaultZoomComboBox_setCurrentIndex env i t).zoomPart := by
  simp only [State.zoomPart, Prod.mk.injEq] at h
  obtain ⟨h1, h2, h3⟩ := h
  simp only [defaultZoomComboBox_setCurrentIndex, h2, h3]
  split_ifs
  · simp only [State.zoomPart, h1, h2, h3]
  · simp only [State.zoomPart, slotSetDefaultZoom, h2, h3]
  · simp only [State.zoomPart, h1, h2, h3]

/-- `slotResetToDefaults` returns once four nested `setValue` calls are allowed. -/
theorem slotResetToDefaults_total (env : Env) (fuel : Nat) (s : State) (hf : 4 ≤ fuel) :
    ∃ s1, slotResetToDefaults env fuel s = some s1 := by
  obtain ⟨d, ed⟩ : ∃ d : Int, d = findData
    (fun t => env.typeToInt t == env.findHandleIndexFromType kDefaultWaveform)
    env.waveformTypeItems := ⟨_, rfl⟩
  obtain ⟨t0, e0⟩ : ∃ t : State,
    t = (if d ≠ -1 ∧ s.ui.waveformTypeComboBox.currentIndex ≠ d then
      waveformTypeComboBox_setCurrentIndex env d s else s) := ⟨_, rfl⟩
  obtain ⟨t5, e5⟩ : ∃ t : State, t = defaultZoomComboBox_setCurrentIndex env (3 + 1)
    (highVisualGain_setValue env 1 (midVisualGain_setValue env 1
      (lowVisualGain_setValue env 1 (allVisualGain_setValue env 1 t0)))) := ⟨_, rfl⟩
  obtain ⟨t6, e6⟩ : ∃ t : State, t = { t5 with ui.synchronizeZoomCheckBox :=
    (t5.ui.synchronizeZoomCheckBox.setChecked true) } := ⟨_, rfl⟩
  obtain ⟨t8, e8⟩ : ∃ t : State, t = normalizeOverviewCheckBox_setChecked false
    (waveformOverviewComboBox_setCurrentIndex 2 t6) := ⟨_, rfl⟩
  obtain ⟨s9, h9⟩ := sliderSetValue_total env fuel Linked.frameRate 60 t8 hf
  obtain ⟨s10, h10⟩ := sliderSetValue_total env fuel Linked.endOfTrackWarningTime 30 s9 hf
  obtain ⟨t11, e11⟩ : ∃ t : State, t = { s10 with ui.enableWaveformCaching :=
    (s10.ui.enableWaveformCaching.setChecked true) } := ⟨_, rfl⟩
  obtain ⟨t12, e12⟩ : ∃ t : State, t = { t11 with ui.enableWaveformGenerationWithAnalysis :=
    (t11.ui.enableWaveformGenerationWithAnalysis.setChecked false) } := ⟨_, rfl⟩
  obtain ⟨s13, h13⟩ := sliderSetValue_total env fuel Linked.beatGridAlpha 90 t12 hf
  obtain ⟨s14, h14⟩ := spinBoxSetValue_total env fuel Linked.beatGridAlpha 90 s13 hf
  refine ⟨playMarkerPositionSlider_setValue env 50 s14, ?_⟩
  subst e12 e11 e8 e6 e5 e0 ed
  unfold slotResetToDefaults
  refine Option.bind_eq_some.2 ⟨s9, h9, ?_⟩
  refine Option.bind_eq_some.2 ⟨s10, h10, ?_⟩
  refine Option.bind_eq_some.2 ⟨s13, h13, ?_⟩
  refine Option.bind_eq_some.2 ⟨s14, h14, ?_⟩
  rfl

/-- The default zoom after `slotResetToDefaults` is the one that
`defaultZoomComboBox->setCurrentIndex(3 + 1)` leaves. -/
theorem slotResetToDefaults_zoomPart (env : Env) (fuel : Nat) (s s1 : State)
    (h : slotResetToDefaults env fuel s = some s1) :
    s1.zoomPart = (defaultZoomComboBox_setCurrentIndex env (3 + 1) s).zoomPart := by
  unfold slotResetToDefaults at h
  obtain ⟨s9, h9, h⟩ := Option.bind_eq_some.1 h
  obtain ⟨s10, h10, h⟩ := Option.bind_eq_some.1 h
  obtain ⟨s13, h13, h⟩ := Option.bind_eq_some.1 h
  obtain ⟨s14, h14, h⟩ := Option.bind_eq_some.1 h
  have e15 : playMarkerPositionSlider_setValue env 50 s14 = s1 := Option.some.inj h
  have z9 := (linked_zoomPart env fuel _ _ _ _).2 h9
  have z10 := (linked_zoomPart env fuel _ _ _ _).2 h10
  have z13 := (linked_zoomPart env fuel _ _ _ _).2 h13
  have z14 := (linked_zoomPart env fuel _ _ _ _).1 h14
  have z12 : ∀ t : State, ({ ({ t with ui.enableWaveformCaching :=
      (t.ui.enableWaveformCaching.setChecked true) } : State) with
      ui.enableWaveformGenerationWithAnalysis :=
        (t.ui.enableWaveformGenerationWithAnalysis.setChecked false) } : State).zoomPart =
      t.zoomPart := fun _ => rfl
  have z6 : ∀ t : State, ({ t with ui.synchronizeZoomCheckBox :=
      (t.ui.synchronizeZoomCheckBox.setChecked true) } : State).zoomPart = t.zoomPart :=
    fun _ => rfl
  rw [← e15, playMarkerPositionSlider_setValue_zoomPart, z14, z13]
  refine (z12 s10).trans ?_
  rw [z10, z9, normalizeOverviewCheckBox_setChecked_zoomPart,
    waveformOverviewComboBox_setCurrentIndex_zoomPart]
  refine (z6 _).trans ?_
  apply defaultZoomComboBox_setCurrentIndex_congr
  rw [highVisualGain_setValue_zoomPart, midVisualGain_setValue_zoomPart,
    lowVisualGain_setValue_zoomPart, allVisualGain_setValue_zoomPart, resetRenderType_zoomPart]

/-! ## C8 -/

/-- C8: on the example page `slotResetToDefaults` returns a state in which index 4
of the default-zoom combo box is selected and, through `slotSetDefaultZoom`, the
default zoom of the factory is 5; yet `slotUpdate` selects index 2 for the default
zoom 3 of the example factory, and `slotSetDefaultZoom 2` sets the default zoom 3. -/
theorem slotResetToDefaults_zoom :
    (∃ s1, slotResetToDefaults env0 8 state0 = some s1 ∧
      s1.ui.defaultZoomComboBox.currentIndex = 4 ∧ s1.factory.defaultZoom = 5) ∧
    state0.factory.defaultZoom = 3 ∧
    (∃ s2, slotUpdate env0 8 state0 = some s2 ∧
      s2.ui.defaultZoomComboBox.currentIndex = 2) ∧
    (slotSetDefaultZoom 2 state0).factory.defaultZoom = 3 := by
  refine ⟨?_, by decide, ?_, by decide⟩
  · obtain ⟨s1, h⟩ := slotResetToDefaults_total env0 8 state0 (by decide)
    have z := slotResetToDefaults_zoomPart env0 8 state0 s1 h
    have e : (defaultZoomComboBox_setCurrentIndex env0 (3 + 1) state0).zoomPart =
        (5, { currentIndex := 4, enabled := true }, true) := by decide
    rw [e] at z
    simp only [State.zoomPart, Prod.mk.injEq] at z
    exact ⟨s1, h, by rw [z.2.1], z.1⟩
  · obtain ⟨s2, h, -, -, -, -, -, -, -, -, -, -, -, -, -, -, -, -, z⟩ :=
      slotUpdate_inRange env0 8 state0 (by decide) (by decide)
    exact ⟨s2, h, by rw [z]; decide⟩

/-! ## C11 -/

/-- Lines 207-234 of `slotUpdate` when neither OpenGL nor OpenGL ES is
available. -/
theorem slotUpdateRenderType_unavailable (env : Env) (s : State)
    (hgl : (s.factory.openGlAvailable || s.factory.openGlesAvailable) = false) :
    (slotUpdateRenderType env s).ui.splitLeftRightCheckBox.visible = false ∧
    (slotUpdateRenderType env s).ui.useAccelerationCheckBox.enabled =
      !(kWaveformWithOnlyAcceleration.contains (slotUpdateRenderType env s).factory.type ||
        kWaveformWithoutAcceleration.contains (slotUpdateRenderType env s).factory.type) ∧
    (kWaveformWithOnlyAcceleration.contains (slotUpdateRenderType env s).factory.type = true →
      (slotUpdateRenderType env s).ui.useAccelerationCheckBox.checked = true) ∧
    (env.setWidgetTypeFromHandle s.factory.type
        (env.findHandleIndexFromType s.factory.type) false = s.factory.type →
      (slotUpdateRenderType env s).factory.type = s.factory.type) := by
  refine ⟨?_, ?_, ?_, ?_⟩
  · simp only [slotUpdateRenderType, hgl, updateEnableUntilMark,
      updateStereoSplitVisibility_visible, Bool.false_and]
  · simp only [slotUpdateRenderType, updateEnableUntilMark,
      setAccelerationCheckboxProperty_enabled]
  · intro h
    simp only [slotUpdateRenderType, updateEnableUntilMark,
      setAccelerationCheckboxProperty_checked] at h ⊢
    rw [if_pos h]
  · intro hp
    simp only [slotUpdateRenderType, hgl, updateEnableUntilMark,
      waveformTypeComboBox_setCurrentIndex, Bool.false_eq_true, if_false]
    by_cases hc : findData (fun t => t == s.factory.type) env.waveformTypeItems ≠ -1 ∧
        s.ui.waveformTypeComboBox.currentIndex ≠
          findData (fun t => t == s.factory.type) env.waveformTypeItems
    · rcases findData_bounds (fun t => t == s.factory.type) env.waveformTypeItems with hb | hb
      · exact absurd hb hc.1
      · have hi := comboIndex_valid _ _ hb.1 hb.2
        have hne : ¬ (findData (fun t => t == s.factory.type) env.waveformTypeItems =
            s.ui.waveformTypeComboBox.currentIndex) := fun e => hc.2 e.symm
        have hit := itemType_findData env s.factory.type hc.1
        have key := fun S => slotSetWaveformType_nonneg env
          (findData (fun t => t == s.factory.type) env.waveformTypeItems) S hb.1
        simp only [if_pos hc, hi, if_neg hne]
        by_cases hcon : s.connected = true
        · simp only [hcon, if_true, key, hit]
          exact hp
        · simp [hcon]
    · simp [if_neg hc]

/-- `slotUpdate` when neither OpenGL nor OpenGL ES is available: it returns, the
split box is hidden, the acceleration box is enabled unless the render type is in
one of the two tables, and checked when the type is in
`kWaveformWithOnlyAcceleration`. -/
theorem slotUpdate_unavailable (env : Env) (fuel : Nat) (s : State) (hf : 4 ≤ fuel)
    (hgl : (s.factory.openGlAvailable || s.factory.openGlesAvailable) = false) :
    ∃ s', slotUpdate env fuel s = some s' ∧
      s'.ui.splitLeftRightCheckBox.visible = false ∧
      s'.ui.useAccelerationCheckBox.enabled =
        !(kWaveformWithOnlyAcceleration.contains s'.factory.type ||
          kWaveformWithoutAcceleration.contains s'.factory.type) ∧
      (kWaveformWithOnlyAcceleration.contains s'.factory.type = true →
        s'.ui.useAccelerationCheckBox.checked = true) ∧
      (env.setWidgetTypeFromHandle s.factory.type
          (env.findHandleIndexFromType s.factory.type) false = s.factory.type →
        s'.factory.type = s.factory.type) := by
  obtain ⟨s2, h2, k2⟩ := slotUpdateValues_kept env fuel (slotUpdateRenderType env s) hf
  obtain ⟨a1, a2, a3, a4⟩ := slotUpdateRenderType_unavailable env s hgl
  obtain ⟨c1, -, c3, c4, -⟩ := slotUpdateOverview_facts s2
  have kt : s2.factory.type = (slotUpdateRenderType env s).factory.type :=
    congrArg Kept.type k2
  have ka : s2.ui.useAccelerationCheckBox =
      (slotUpdateRenderType env s).ui.useAccelerationCheckBox :=
    congrArg Kept.useAccelerationCheckBox k2
  have ks : s2.ui.splitLeftRightCheckBox =
      (slotUpdateRenderType env s).ui.splitLeftRightCheckBox :=
    congrArg Kept.splitLeftRightCheckBox k2
  refine ⟨slotUpdateOverview s2, by simp [slotUpdate, h2], ?_⟩
  rw [c1, c3, c4, kt, ka, ks]
  exact ⟨a1, a2, a3, a4⟩

/-- C11: on the example page without OpenGL and OpenGL ES, `slotUpdate` hides the
split box but leaves the acceleration box enabled when the render type of the
factory is `RGB`, and disabled but checked when it is `Simple`: the
`setAccelerationCheckboxProperty` of line 232 overrides what lines 218-219 set. -/
theorem slotUpdate_without_opengl :
    (stateNoGl.factory.openGlAvailable || stateNoGl.factory.openGlesAvailable) = false ∧
    (∃ s', slotUpdate env0 8 stateNoGl = some s' ∧
      s'.factory.type = WaveformWidgetType.RGB ∧
      s'.ui.splitLeftRightCheckBox.visible = false ∧
      s'.ui.useAccelerationCheckBox.enabled = true) ∧
    (stateNoGlSimple.factory.openGlAvailable || stateNoGlSimple.factory.openGlesAvailable) =
      false ∧
    (∃ s', slotUpdate env0 8 stateNoGlSimple = some s' ∧
      s'.factory.type = WaveformWidgetType.Simple ∧
      s'.ui.splitLeftRightCheckBox.visible = false ∧
      s'.ui.useAccelerationCheckBox.enabled = false ∧
      s'.ui.useAccelerationCheckBox.checked = true) := by
  refine ⟨by decide, ?_, by decide, ?_⟩
  · obtain ⟨s', h, a, b, -, d⟩ := slotUpdate_unavailable env0 8 stateNoGl (by decide) (by decide)
    have t : s'.factory.type = WaveformWidgetType.RGB := d (by decide)
    rw [t] at b
    exact ⟨s', h, t, a, by rw [b]; decide⟩
  · obtain ⟨s', h, a, b, c, d⟩ :=
      slotUpdate_unavailable env0 8 stateNoGlSimple (by decide) (by decide)
    have t : s'.factory.type = WaveformWidgetType.Simple := d (by decide)
    rw [t] at b c
    exact ⟨s', h, t, a, by rw [b]; decide, c (by decide)⟩


end DlgPrefWaveform
